import Mathlib

/-!
The sampling and enforcement engine of runlim: a shallow embedding of
`runlim.c`.

Conventions of the embedding.

* The file-scope variables of the C program are the fields of `State`.
* `process` is the registry `static Process process[PID_MAX]`; a `Process *`
  always points into that array (or is null), so a pointer is an
  `Option Nat`: the index of the record, `none` for the null pointer.
* `long`, `int` and `pid_t` values are `Int`, `unsigned` values are `Nat`
  (none of the counters modelled here comes near its machine bound),
  `double` values are exact rationals.
* A failing `assert` stops the program: every operation returns a `Res`,
  which is `ok` with the new state and the returned value, `abort` with the
  state at the failing assertion, or `fuel` when the iteration bound handed
  to a pointer-following loop was too small.
* System calls are recorded: `kill` and `usleep` append an `Event` to
  `State.trace`; each `read_processes` call consumes the next reading of
  `/proc` from `State.proc`. A `kill` with pid 0 reaches the process group of
  the supervisor itself: the supervisor does not return from it, and the
  operation ends as `signalled`.
* Every pointer-following loop and recursive walk takes the iteration bound
  `fuel`; the results below hold for every bound, and the concrete runs give
  one that suffices.
-/

namespace Runlim

/-- Status of the run, `enum Status`. -/
inductive Status where
  | OK
  | OUT_OF_MEMORY
  | OUT_OF_TIME
  | SEGMENTATION_FAULT
  | BUS_ERROR
  | OTHER_SIGNAL
  | FORK_FAILED
  | INTERNAL_ERROR
  | EXEC_FAILED
  deriving DecidableEq, Repr

/-- Registry record, `struct Process`. -/
structure Process where
  active : Bool
  cyclic_sampling : Bool
  cyclic_killing : Bool
  pid : Int
  ppid : Int
  sampled : Int
  time : ℚ
  memory : ℚ
  next : Option Nat
  child : Option Nat
  parent : Option Nat
  sibbling : Option Nat
  deriving DecidableEq

/-- A record of the zero-initialised static array. -/
def Process.zero : Process :=
  { active := false, cyclic_sampling := false, cyclic_killing := false,
    pid := 0, ppid := 0, sampled := 0, time := 0, memory := 0,
    next := none, child := none, parent := none, sibbling := none }

/-- The two signals the killer sends. -/
inductive Signal where
  | SIGTERM
  | SIGKILL
  deriving DecidableEq, Repr

/-- System calls recorded in the trace. -/
inductive Event where
  | kill (pid : Int) (sig : Signal)
  | usleep (us : Int)
  deriving DecidableEq, Repr

/-- One entry of `/proc` as `read_processes` sees it: `d_pid` is
`atoi (de->d_name)`, `stat` is `none` when `fopen` of the stat file fails and
otherwise the blank-separated tokens of the file, each with the result of
`sscanf (token, "%ld", ..)` (`none` when the conversion fails). -/
structure ProcEntry where
  d_pid : Int
  stat : Option (List (Option Int))
  deriving DecidableEq

/-- File-scope variables of `runlim.c`, the constants taken from system
headers (`HZ`), the pending readings of `/proc` and the trace of system
calls. -/
structure State where
  process : Nat → Process
  active : Option Nat
  pid_max : Int
  page_size : Int
  HZ : Int
  child_pid : Int
  parent_pid : Int
  num_samples : Int
  num_samples_since_last_report : Int
  max_time : ℚ
  max_memory : ℚ
  accumulated_time : ℚ
  sampled_time : ℚ
  sampled_memory : ℚ
  time_limit : Nat
  real_time_limit : Nat
  space_limit : Nat
  caught_out_of_memory : Bool
  caught_out_of_time : Bool
  caught_usr1_signal : Bool
  caught_other_signal : Bool
  propagate_signals : Bool
  proc : List (List ProcEntry)
  trace : List Event

/-- Outcome of an operation: it returned, it stopped at a failing assertion,
the iteration bound was too small, or the supervisor sent a signal to its
own process group and does not return from the call. -/
inductive Res (α : Type) where
  | ok (s : State) (a : α)
  | abort (s : State)
  | fuel (s : State)
  | signalled (s : State)

/-- State carried by an outcome. -/
def Res.state {α : Type} : Res α → State
  | .ok s _ => s
  | .abort s => s
  | .fuel s => s
  | .signalled s => s

/-- Whether the operation ran to its end. -/
def Res.isOk {α : Type} : Res α → Bool
  | .ok _ _ => true
  | _ => false

/-- Whether the operation stopped at a failing assertion. -/
def Res.isAbort {α : Type} : Res α → Bool
  | .abort _ => true
  | _ => false

/-- Whether the operation ended in a signal of the supervisor to its own
process group. -/
def Res.isSignalled {α : Type} : Res α → Bool
  | .signalled _ => true
  | _ => false

/-- Returned value, when there is one. -/
def Res.value {α : Type} : Res α → Option α
  | .ok _ a => some a
  | _ => none

/-- Sequencing: run `k` on the result when the first operation returned. -/
def Res.bind {α β : Type} (r : Res α) (k : State → α → Res β) : Res β :=
  match r with
  | .ok s a => k s a
  | .abort s => .abort s
  | .fuel s => .fuel s
  | .signalled s => .signalled s

/-- Store through a record pointer: `process[i]` becomes `f process[i]`. -/
def State.modify (s : State) (i : Nat) (f : Process → Process) : State :=
  { s with process := fun j => if j = i then f (s.process i) else s.process j }

/-- The file-scope variables that neither the registry operations nor the
killer write: all but `process`, `active`, `accumulated_time`,
`sampled_time`, `sampled_memory`, the pending readings and the trace. -/
structure Ctl where
  pid_max : Int
  page_size : Int
  HZ : Int
  child_pid : Int
  parent_pid : Int
  num_samples : Int
  num_samples_since_last_report : Int
  max_time : ℚ
  max_memory : ℚ
  time_limit : Nat
  real_time_limit : Nat
  space_limit : Nat
  caught_out_of_memory : Bool
  caught_out_of_time : Bool
  caught_usr1_signal : Bool
  caught_other_signal : Bool
  propagate_signals : Bool
  deriving DecidableEq

/-- Projection of a state on `Ctl`. -/
def State.ctl (s : State) : Ctl :=
  { pid_max := s.pid_max, page_size := s.page_size, HZ := s.HZ,
    child_pid := s.child_pid, parent_pid := s.parent_pid,
    num_samples := s.num_samples,
    num_samples_since_last_report := s.num_samples_since_last_report,
    max_time := s.max_time, max_memory := s.max_memory,
    time_limit := s.time_limit, real_time_limit := s.real_time_limit,
    space_limit := s.space_limit,
    caught_out_of_memory := s.caught_out_of_memory,
    caught_out_of_time := s.caught_out_of_time,
    caught_usr1_signal := s.caught_usr1_signal,
    caught_other_signal := s.caught_other_signal,
    propagate_signals := s.propagate_signals }

/-- The state `t` differs from `s` in the registry and the sampling
variables at most: no `Ctl` variable changed and no system call was made. -/
def Quiet (s t : State) : Prop :=
  t.ctl = s.ctl ∧ t.trace = s.trace

/-- The state `t` is `s` after registry operations and signals none of
which went to the supervisor: no `Ctl` variable changed and every `kill` of
the trace of `t` either was in the trace of `s` or has a pid other than
`parent_pid`. -/
def Spared (s t : State) : Prop :=
  t.ctl = s.ctl ∧
  ∀ pid sig, Event.kill pid sig ∈ t.trace →
    Event.kill pid sig ∈ s.trace ∨ pid ≠ s.parent_pid

/-- Source: `add_process`. -/
def add_process (s : State) (pid ppid : Int) (time memory : ℚ) : Res Unit :=
  if ¬ (0 < pid) then .abort s
  else if ¬ (pid < s.pid_max) then .abort s
  else if ¬ (0 ≤ ppid) then .abort s
  else if ¬ (ppid < s.pid_max) then .abort s
  else
    let p := pid.toNat
    if (s.process p).active then
      if (s.process p).pid ≠ pid then .abort s
      else
        let s1 := s.modify p (fun r => { r with time := time })
        let s2 := if (s1.process p).memory < memory
                  then s1.modify p (fun r => { r with memory := memory })
                  else s1
        .ok (s2.modify p (fun r => { r with sampled := s2.num_samples })) ()
    else
      let s1 := s.modify p (fun r =>
        { r with active := true, pid := pid, ppid := ppid, time := time,
                 memory := memory, next := none })
      let s2 := match s1.active with
        | some a => s1.modify a (fun r => { r with next := some p })
        | none => { s1 with active := some p }
      .ok (s2.modify p (fun r => { r with sampled := s2.num_samples })) ()

/-- Records reached from pointer `p` through `next`, at most `n` of them. -/
def follow_next (process : Nat → Process) : Nat → Option Nat → List Nat
  | 0, _ => []
  | _ + 1, none => []
  | n + 1, some i => i :: follow_next process n (process i).next

/-- The active list of a state, followed for at most `n` records. -/
def State.active_list (s : State) (n : Nat) : List Nat :=
  follow_next s.process n s.active

/-- State at program start: zeroed registry, nothing caught. -/
def State.init (pid_max page_size hz : Int) (child_pid parent_pid : Int)
    (time_limit real_time_limit space_limit : Nat)
    (proc : List (List ProcEntry)) : State :=
  { process := fun _ => Process.zero, active := none, pid_max := pid_max,
    page_size := page_size, HZ := hz, child_pid := child_pid,
    parent_pid := parent_pid, num_samples := 0,
    num_samples_since_last_report := 0, max_time := 0, max_memory := 0,
    accumulated_time := 0, sampled_time := 0, sampled_memory := 0,
    time_limit := time_limit, real_time_limit := real_time_limit,
    space_limit := space_limit, caught_out_of_memory := false,
    caught_out_of_time := false, caught_usr1_signal := false,
    caught_other_signal := false, propagate_signals := false,
    proc := proc, trace := [] }

/-- Position of the pid in a stat file, `PID_POS`. -/
def PID_POS : Nat := 0
/-- Position of the parent pid, `PPID_POS`. -/
def PPID_POS : Nat := 3
/-- Position of the system time, `STIME_POS`. -/
def STIME_POS : Nat := 13
/-- Position of the user time, `UTIME_POS`. -/
def UTIME_POS : Nat := 14
/-- Position of the resident set size, `RSIZE_POS`. -/
def RSIZE_POS : Nat := 23
/-- Last position looked at, `MAX_POS`. -/
def MAX_POS : Nat := 23

/-- Local variables of `read_processes` filled from one stat file. -/
structure StatVars where
  tmpid : Int
  ppid : Int
  rss : Int
  ujiffies : Int
  sjiffies : Int
  deriving DecidableEq

/-- Values of the locals before the token loop. -/
def StatVars.unset : StatVars :=
  { tmpid := -1, ppid := -1, rss := -1, ujiffies := -1, sjiffies := -1 }

/-- Source: the `while (token && i <= MAX_POS)` loop of `read_processes`;
`none` is `goto NEXT`. -/
def scan_tokens (pid pid_max : Int) :
    List (Option Int) → Nat → StatVars → Option StatVars
  | [], _, v => some v
  | token :: rest, i, v =>
    if ¬ (i ≤ MAX_POS) then some v
    else if i = PID_POS then
      match token with
      | none => none
      | some x =>
        if x ≠ pid then none
        else scan_tokens pid pid_max rest (i + 1) { v with tmpid := x }
    else if i = PPID_POS then
      match token with
      | none => none
      | some x =>
        if x < 0 then none
        else if x ≥ pid_max then none
        else scan_tokens pid pid_max rest (i + 1) { v with ppid := x }
    else if i = RSIZE_POS then
      match token with
      | none => none
      | some x => scan_tokens pid pid_max rest (i + 1) { v with rss := x }
    else if i = STIME_POS then
      match token with
      | none => none
      | some x => scan_tokens pid pid_max rest (i + 1) { v with sjiffies := x }
    else if i = UTIME_POS then
      match token with
      | none => none
      | some x => scan_tokens pid pid_max rest (i + 1) { v with ujiffies := x }
    else scan_tokens pid pid_max rest (i + 1) v

/-- Source: `time = (ujiffies + sjiffies) / (double) HZ`. -/
def time_of_jiffies (s : State) (ujiffies sjiffies : Int) : ℚ :=
  ((ujiffies + sjiffies : Int) : ℚ) / (s.HZ : ℚ)

/-- Source: `memory = rss / (double) page_size`. -/
def memory_of_rss (s : State) (rss : Int) : ℚ :=
  (rss : ℚ) / (s.page_size : ℚ)

/-- Source: the `while ((de = readdir (dir)) != NULL)` loop of
`read_processes`, over the entries of one reading of `/proc`. -/
def read_entries : List ProcEntry → State → Int → Res Int
  | [], s, res => .ok s res
  | de :: rest, s, res =>
    let pid := de.d_pid
    if pid = 0 then read_entries rest s res
    else if pid ≥ s.pid_max then read_entries rest s res
    else
      match de.stat with
      | none => read_entries rest s res
      | some tokens =>
        match scan_tokens pid s.pid_max tokens 0 StatVars.unset with
        | none => read_entries rest s res
        | some v =>
          if v.tmpid < 0 then read_entries rest s res
          else if v.tmpid ≠ pid then .abort s
          else if v.ppid < 0 then read_entries rest s res
          else if v.ujiffies < 0 then read_entries rest s res
          else if v.sjiffies < 0 then read_entries rest s res
          else if v.rss < 0 then read_entries rest s res
          else
            (add_process s pid v.ppid (time_of_jiffies s v.ujiffies v.sjiffies)
              (memory_of_rss s v.rss)).bind fun s1 _ =>
            read_entries rest s1 (res + 1)

/-- Source: `read_processes`. The directory read is the next pending reading
of `/proc`; with none pending the directory shows no entry. -/
def read_processes (s : State) : Res Int :=
  read_entries (s.proc.headD []) { s with proc := s.proc.tail } 0

/-- Source: `find_process`; the returned pointer is `process + pid`. -/
def find_process (s : State) (pid : Int) : Res Nat :=
  if ¬ (0 ≤ pid) then .abort s
  else if ¬ (pid < s.pid_max) then .abort s
  else .ok s pid.toNat

/-- Source: `clear_tree_connections`. -/
def clear_tree_connections (s : State) (p : Nat) : State :=
  s.modify p (fun r => { r with parent := none, child := none, sibbling := none })

/-- Source: first loop of `connect_process_tree`. -/
def connect_clear_loop : Nat → State → Option Nat → Res Unit
  | _, s, none => .ok s ()
  | 0, s, some _ => .fuel s
  | n + 1, s, some p =>
    if ¬ (s.process p).active then .abort s
    else
      (find_process s (s.process p).pid).bind fun s1 q =>
      if q ≠ p then .abort s1
      else
        (find_process s1 (s1.process p).ppid).bind fun s2 parent =>
        let s3 := clear_tree_connections s2 parent
        let s4 := clear_tree_connections s3 p
        connect_clear_loop n s4 (s4.process p).next

/-- Source: second loop of `connect_process_tree`. -/
def connect_link_loop : Nat → State → Option Nat → Res Unit
  | _, s, none => .ok s ()
  | 0, s, some _ => .fuel s
  | n + 1, s, some p =>
    (find_process s (s.process p).ppid).bind fun s1 parent =>
    let s2 := s1.modify p (fun r => { r with parent := some parent })
    let s3 := match (s2.process parent).child with
      | some c => s2.modify c (fun r => { r with sibbling := some p })
      | none => s2.modify parent (fun r => { r with child := some p })
    connect_link_loop n s3 (s3.process p).next

/-- Source: `connect_process_tree`. -/
def connect_process_tree (fuel : Nat) (s : State) : Res Unit :=
  (connect_clear_loop fuel s s.active).bind fun s1 _ =>
  connect_link_loop fuel s1 s1.active

/-- Source: the loop of `flush_inactive_processes`, with its locals `prev`,
`p` and `res`. -/
def flush_loop : Nat → State → Option Nat → Option Nat → Int → Res Int
  | _, s, _, none, res => .ok s res
  | 0, s, _, some _, _ => .fuel s
  | n + 1, s, prev, some p, res =>
    if ¬ (s.process p).active then .abort s
    else
      let next := (s.process p).next
      if (s.process p).sampled = s.num_samples then
        flush_loop n s (some p) next res
      else
        let s1 := match prev with
          | some q => s.modify q (fun r => { r with next := next })
          | none => { s with active := next }
        let s2 := { s1 with accumulated_time := s1.accumulated_time + (s1.process p).time }
        let s3 := s2.modify p (fun r => { r with active := false })
        flush_loop n s3 prev next (res + 1)

/-- Source: `flush_inactive_processes`. -/
def flush_inactive_processes (fuel : Nat) (s : State) : Res Int :=
  flush_loop fuel s none s.active 0

mutual
/-- Source: `sample_recursively`. -/
def sample_recursively : Nat → State → Nat → Res Int
  | 0, s, _ => .fuel s
  | n + 1, s, p =>
    if (s.process p).cyclic_sampling then .ok s 0
    else
      let s1 := if (s.process p).sampled = s.num_samples
        then { s with sampled_time := s.sampled_time + (s.process p).time,
                      sampled_memory := s.sampled_memory + (s.process p).memory }
        else s
      let res : Int := if (s.process p).sampled = s.num_samples then 1 else 0
      let s2 := s1.modify p (fun r => { r with cyclic_sampling := true })
      (sample_children n s2 (s2.process p).child res).bind fun s3 res3 =>
      if ¬ (s3.process p).cyclic_sampling then .abort s3
      else .ok (s3.modify p (fun r => { r with cyclic_sampling := false })) res3
/-- Source: the `for (child = p->child; child; child = child->sibbling)` loop
of `sample_recursively`. -/
def sample_children : Nat → State → Option Nat → Int → Res Int
  | _, s, none, res => .ok s res
  | 0, s, some _, _ => .fuel s
  | n + 1, s, some child, res =>
    (sample_recursively n s child).bind fun s1 r =>
    sample_children n s1 (s1.process child).sibbling (res + r)
end

/-- Source: `sample_all_child_processes`. -/
def sample_all_child_processes (fuel : Nat) (s : State) : Res Int :=
  (read_processes s).bind fun s1 read =>
  (connect_process_tree fuel s1).bind fun s2 _ =>
  (if read > 0 then
    (find_process s2 s2.child_pid).bind fun s3 p =>
    sample_recursively fuel s3 p
   else .ok s2 0).bind fun s4 sampled =>
  (flush_inactive_processes fuel s4).bind fun s5 flushed =>
  .ok s5 (sampled + flushed)

/-- The system call `kill (pid, sig)`, recorded in the trace. With `pid` 0
the signal goes to every process of the process group of the caller, the
supervisor included, and the supervisor does not return from the call:
SIGKILL ends it; SIGTERM runs `sig_other_handler` while that is installed,
which calls `kill_all_child_processes` and blocks on `kill_mutex`, held by
the walk that sent the signal, and ends the supervisor once the handlers are
restored. Every `kill` of the program is made by a walk under
`kill_mutex`. -/
def sys_kill (s : State) (pid : Int) (sig : Signal) : Res Unit :=
  if pid = 0 then .signalled { s with trace := s.trace ++ [Event.kill pid sig] }
  else .ok { s with trace := s.trace ++ [Event.kill pid sig] } ()

/-- The system call `usleep (us)`. -/
def sys_usleep (s : State) (us : Int) : State :=
  { s with trace := s.trace ++ [Event.usleep us] }

/-- Source: `term_process`. -/
def term_process (s : State) (p : Nat) : Res Unit :=
  if ¬ ((s.process p).pid ≠ s.parent_pid) then .abort s
  else sys_kill s (s.process p).pid Signal.SIGTERM

/-- Source: `kill_process`. -/
def kill_process (s : State) (p : Nat) : Res Unit :=
  if ¬ ((s.process p).pid ≠ s.parent_pid) then .abort s
  else sys_kill s (s.process p).pid Signal.SIGKILL

mutual
/-- Source: `kill_recursively`; `killer` is the function pointer. -/
def kill_recursively : Nat → (State → Nat → Res Unit) → State → Nat → Res Int
  | 0, _, s, _ => .fuel s
  | n + 1, killer, s, p =>
    if (s.process p).cyclic_killing then .ok s 0
    else
      let s1 := s.modify p (fun r => { r with cyclic_killing := true })
      (kill_children n killer s1 (s1.process p).child 0).bind fun s2 res =>
      if ¬ (s2.process p).cyclic_killing then .abort s2
      else
        let s3 := s2.modify p (fun r => { r with cyclic_killing := false })
        let s4 := sys_usleep s3 100
        (killer s4 p).bind fun s5 _ =>
        .ok s5 (res + 1)
/-- Source: the `for (child = p->child; child; child = child->sibbling)` loop
of `kill_recursively`. -/
def kill_children : Nat → (State → Nat → Res Unit) → State → Option Nat → Int → Res Int
  | _, _, s, none, res => .ok s res
  | 0, _, s, some _, _ => .fuel s
  | n + 1, killer, s, some child, res =>
    (kill_recursively n killer s child).bind fun s1 r =>
    kill_children n killer s1 (s1.process child).sibbling (res + r)
end

/-- Source: the `do .. while (killed > 0 && rounds++ < 10)` loop of
`kill_all_child_processes`, with its locals `ms` and `rounds`. -/
def kill_all_loop : Nat → State → Int → Int → Res Unit
  | 0, s, _, _ => .fuel s
  | n + 1, s, ms, rounds =>
    let s1 := sys_usleep s ms
    let killer := if ms > 2000 then term_process else kill_process
    (read_processes s1).bind fun s2 read =>
    (if read > 0 then
      (connect_process_tree n s2).bind fun s3 _ =>
      (find_process s3 s3.child_pid).bind fun s4 p =>
      kill_recursively n killer s4 p
     else .ok s2 0).bind fun s5 killed =>
    let ms1 := if ms > 1000 then ms / 2 else ms
    if killed > 0 ∧ rounds < 10 then kill_all_loop n s5 ms1 (rounds + 1)
    else .ok s5 ()

/-- Source: `kill_all_child_processes`. -/
def kill_all_child_processes (fuel : Nat) (s : State) : Res Unit :=
  kill_all_loop fuel s 160000 0

/-- Samples between two reports, `REPORT_RATE`. -/
def REPORT_RATE : Int := 100

/-- Source: the first statements of `sampler`: `num_samples++` and
`sampled_time = sampled_memory = 0`. -/
def tick_entry (s : State) : State :=
  { s with num_samples := s.num_samples + 1, sampled_time := 0, sampled_memory := 0 }

/-- Source: `sampler` after the call of `sample_all_child_processes`, which
left the state `s3` and returned `sampled`; `real` is what `real_time ()`
returns in this tick. -/
def sampler_rest (fuel : Nat) (real : ℚ) (s3 : State) (sampled : Int) : Res Unit :=
  let s4 := if sampled > 0 then
      let t := if s3.sampled_memory > s3.max_memory
        then { s3 with max_memory := s3.sampled_memory } else s3
      if t.sampled_time > t.max_time then { t with max_time := t.sampled_time } else t
    else s3
  let s5 := if s4.num_samples_since_last_report + 1 ≥ REPORT_RATE
    then { s4 with num_samples_since_last_report := 0 }
    else { s4 with num_samples_since_last_report := s4.num_samples_since_last_report + 1 }
  if sampled > 0 then
    if s5.sampled_time > (s5.time_limit : ℚ) ∨ real > (s5.real_time_limit : ℚ) then
      let already_caught := s5.caught_out_of_time
      let s6 := { s5 with caught_out_of_time := true }
      if already_caught = false then kill_all_child_processes fuel s6 else .ok s6 ()
    else if s5.sampled_memory > (s5.space_limit : ℚ) then
      let already_caught := s5.caught_out_of_memory
      let s6 := { s5 with caught_out_of_memory := true }
      if already_caught = false then kill_all_child_processes fuel s6 else .ok s6 ()
    else .ok s5 ()
  else .ok s5 ()

/-- Source: `sampler`. -/
def sampler (fuel : Nat) (s : State) (real : ℚ) : Res Unit :=
  (sample_all_child_processes fuel (tick_entry s)).bind (sampler_rest fuel real)

/-- The four latches of a state: `caught_out_of_time`,
`caught_out_of_memory`, `caught_usr1_signal`, `caught_other_signal`. -/
def State.latches (s : State) : Bool × Bool × Bool × Bool :=
  (s.caught_out_of_time, s.caught_out_of_memory, s.caught_usr1_signal,
   s.caught_other_signal)

/-- Signal number of `SIGBUS` (Linux). -/
def SIGBUS : Int := 7
/-- Signal number of `SIGSEGV` (Linux). -/
def SIGSEGV : Int := 11
/-- Signal number of `SIGXCPU` (Linux). -/
def SIGXCPU : Int := 24
/-- Signal number of `SIGXFSZ` (Linux). -/
def SIGXFSZ : Int := 25

/-- What `wait` stored in `status`: `WIFEXITED` with `WEXITSTATUS`,
`WIFSIGNALED` with `WTERMSIG`, or neither. -/
inductive WaitStatus where
  | exited (code : Int)
  | signaled (sig : Int)
  | neither
  deriving DecidableEq

/-- The `description` printed as status: a literal, or the text
`sprintf (signal_description, "signal(%d)", s)` builds. -/
inductive Description where
  | text (t : String)
  | signal (s : Int)
  deriving DecidableEq

/-- What `main` leaves behind: the status line, the value it returns, the
final `ok`, and the signal re-raised under `propagate_signals`. -/
structure Exit where
  description : Description
  res : Int
  ok : Status
  raised : Option Int
  deriving DecidableEq

/-- Source: the `switch (s)` of `main` on the terminating signal. -/
def status_of_signal (sig : Int) : Status :=
  if sig = SIGXFSZ then Status.OUT_OF_MEMORY
  else if sig = SIGXCPU then Status.OUT_OF_TIME
  else if sig = SIGSEGV then Status.SEGMENTATION_FAULT
  else if sig = SIGBUS then Status.BUS_ERROR
  else Status.OTHER_SIGNAL

/-- Source: the `switch (ok)` of `main` that sets `description` and `res`;
`s` is the signal caught. -/
def describe (ok : Status) (s : Int) : Description × Int :=
  match ok with
  | .OK => (.text "ok", 0)
  | .OUT_OF_TIME => (.text "out of time", 2)
  | .OUT_OF_MEMORY => (.text "out of memory", 3)
  | .SEGMENTATION_FAULT => (.text "segmentation fault", 4)
  | .BUS_ERROR => (.text "bus error", 5)
  | .FORK_FAILED => (.text "fork failed", 6)
  | .INTERNAL_ERROR => (.text "internal error", 7)
  | .EXEC_FAILED => (.text "execvp failed", 1)
  | .OTHER_SIGNAL => (.signal s, 11)

/-- Source: `main`, the branch `child_pid != 0` up to the return of `wait`:
the locals `ok`, `s` (the signal caught) and `res` it leaves. -/
def wait_outcome (child_pid : Int) (status : WaitStatus) : Status × Int × Int :=
  if child_pid < 0 then (Status.FORK_FAILED, 0, 1)
  else
    match status with
    | .exited code => (Status.OK, 0, code)
    | .signaled sig => (status_of_signal sig, sig, 128 + sig)
    | .neither => (Status.INTERNAL_ERROR, 0, 1)

/-- Source: the tests of the latches in `main` that overwrite `ok`. -/
def latched_status (s : State) (ok : Status) : Status :=
  if s.caught_usr1_signal then Status.EXEC_FAILED
  else if s.caught_out_of_memory then Status.OUT_OF_MEMORY
  else if s.caught_out_of_time then Status.OUT_OF_TIME
  else ok

/-- Source: the `switch (ok)` under `if (propagate_signals)` at the end of
`main`: the signal passed to `raise`, if any. -/
def propagated (propagate_signals : Bool) (ok : Status) (s : Int) : Option Int :=
  if propagate_signals then
    match ok with
    | .OK | .OUT_OF_TIME | .OUT_OF_MEMORY | .FORK_FAILED
    | .INTERNAL_ERROR | .EXEC_FAILED => none
    | _ => some s
  else none

/-- Source: `main` from the test of the latches to `return res`, without the
call of `kill_all_child_processes`: `s` holds the file-scope variables
before that call, `s1` after it. -/
def main_exit (s s1 : State) (status : WaitStatus) (real : ℚ) : Exit :=
  let w := wait_outcome s.child_pid status
  let ok := latched_status s w.1
  let d : Description × Int :=
    if s1.max_time ≥ (s1.time_limit : ℚ) ∨ real ≥ (s1.real_time_limit : ℚ)
    then (.text "out of time", 2)
    else describe ok w.2.1
  { description := d.1, res := d.2, ok := ok,
    raised := propagated s1.propagate_signals ok w.2.1 }

/-- Source: `main` in the supervisor, from the return of `fork` (its result
is `s.child_pid`) to `return res`. `status` is what `wait` stores, `s` holds
the file-scope variables when `wait` returns, `real` is the value of
`real_time ()` in the override test. The result is `none` in the forked
child (`child_pid == 0`), which calls `execvp` and does not reach the
classification. -/
def main (fuel : Nat) (s : State) (status : WaitStatus) (real : ℚ) :
    Res (Option Exit) :=
  if s.child_pid ≠ 0 then
    (kill_all_child_processes fuel s).bind fun s1 _ =>
    .ok s1 (some (main_exit s s1 status real))
  else .ok s none

/-- Status line and value returned by `main`, when it returns. -/
def main_report (fuel : Nat) (s : State) (status : WaitStatus) (real : ℚ) :
    Option (Description × Int) :=
  match main fuel s status real with
  | .ok _ (some e) => some (e.description, e.res)
  | _ => none

/-- Source: `sig_usr1_handler`. -/
def sig_usr1_handler (s : State) : State :=
  { s with caught_usr1_signal := true }

/-- Source: `sig_other_handler`, up to `raise (s)`. -/
def sig_other_handler (fuel : Nat) (s : State) : Res Unit :=
  let already_caught := s.caught_other_signal
  let s1 := { s with caught_other_signal := true }
  if already_caught then .ok s1 ()
  else
    (kill_all_child_processes fuel s1).bind fun s2 _ =>
    .ok (sys_usleep s2 10000) ()

/-- Records reached from pointer `p` through `sibbling`, at most `n` of
them. -/
def follow_sibbling (process : Nat → Process) : Nat → Option Nat → List Nat
  | 0, _ => []
  | _ + 1, none => []
  | n + 1, some i => i :: follow_sibbling process n (process i).sibbling

/-- The children of record `p` as the walks see them: the chain from
`p->child` through `sibbling`, followed for at most `n` records. -/
def State.children (s : State) (n : Nat) (p : Nat) : List Nat :=
  follow_sibbling s.process n (s.process p).child

/-- Pids and signals of the `kill` calls of a trace, in order. -/
def kills : List Event → List (Int × Signal)
  | [] => []
  | Event.kill pid sig :: t => (pid, sig) :: kills t
  | Event.usleep _ :: t => kills t

/-- The sleeps of a trace that are not the 100 µs pause of the subtree walk:
`kill_all_child_processes` sleeps once at the start of each round. -/
def round_sleeps : List Event → List Int
  | [] => []
  | Event.kill _ _ :: t => round_sleeps t
  | Event.usleep us :: t => if us = 100 then round_sleeps t else us :: round_sleeps t

/-- Source: one round of the loop of `kill_all_child_processes` after its
sleep: the choice of the killer, the re-read of `/proc` and the walk; the
value is `killed`. -/
def kill_round (n : Nat) (s1 : State) (ms : Int) : Res Int :=
  (read_processes s1).bind fun s2 read =>
  if read > 0 then
    (connect_process_tree n s2).bind fun s3 _ =>
    (find_process s3 s3.child_pid).bind fun s4 p =>
    kill_recursively n (if ms > 2000 then term_process else kill_process) s4 p
  else .ok s2 0

/-- Source: `sampler`, the update of `max_memory` and `max_time` under
`if (sampled > 0)`. -/
def update_max (s3 : State) (sampled : Int) : State :=
  if sampled > 0 then
    let t := if s3.sampled_memory > s3.max_memory
      then { s3 with max_memory := s3.sampled_memory } else s3
    if t.sampled_time > t.max_time then { t with max_time := t.sampled_time } else t
  else s3

/-- Source: `sampler`, the count of the samples since the last report. -/
def count_report (s4 : State) : State :=
  if s4.num_samples_since_last_report + 1 ≥ REPORT_RATE
  then { s4 with num_samples_since_last_report := 0 }
  else { s4 with num_samples_since_last_report := s4.num_samples_since_last_report + 1 }

/-- Source: `sampler`, the check of the limits under the last
`if (sampled > 0)`. -/
def limit_check (fuel : Nat) (real : ℚ) (s5 : State) (sampled : Int) : Res Unit :=
  if sampled > 0 then
    if s5.sampled_time > (s5.time_limit : ℚ) ∨ real > (s5.real_time_limit : ℚ) then
      let already_caught := s5.caught_out_of_time
      let s6 := { s5 with caught_out_of_time := true }
      if already_caught = false then kill_all_child_processes fuel s6 else .ok s6 ()
    else if s5.sampled_memory > (s5.space_limit : ℚ) then
      let already_caught := s5.caught_out_of_memory
      let s6 := { s5 with caught_out_of_memory := true }
      if already_caught = false then kill_all_child_processes fuel s6 else .ok s6 ()
    else .ok s5 ()
  else .ok s5 ()

/-- The state `t` has the sampled sums of `s` and the round sleeps of `s`:
between the two nothing was added to `sampled_time` or `sampled_memory` and
no round of `kill_all_child_processes` was started. -/
def Steady (s t : State) : Prop :=
  t.sampled_time = s.sampled_time ∧ t.sampled_memory = s.sampled_memory ∧
  round_sleeps t.trace = round_sleeps s.trace

/-- Number of entrances into `kill_all_child_processes` a trace shows: each
call starts with the sleep of 160000 µs, and no later round sleeps as
long. -/
def teardowns (t : List Event) : Nat :=
  (round_sleeps t).count 160000

/-- Number of the causes out-of-time, out-of-memory and other-signal whose
latch is not set yet. -/
def armed (s : State) : Nat :=
  (if s.caught_out_of_time then 0 else 1) + (if s.caught_out_of_memory then 0 else 1)
    + (if s.caught_other_signal then 0 else 1)

/-- What the run delivers to the supervisor while it waits: a timer tick
(`SIGALRM`, with the real time `real_time ()` reads in it) or a terminating
signal handled by `sig_other_handler`. -/
inductive Delivery where
  | tick (real : ℚ)
  | signal
  deriving DecidableEq

/-- The handler run for a delivery. -/
def deliver (fuel : Nat) (s : State) : Delivery → Res Unit
  | .tick real => sampler fuel s real
  | .signal => sig_other_handler fuel s

/-- A sequence of deliveries, each handled to its end before the next. -/
def run_handlers (fuel : Nat) : State → List Delivery → Res Unit
  | s, [] => .ok s ()
  | s, d :: rest => (deliver fuel s d).bind fun s1 _ => run_handlers fuel s1 rest

/-- A sequence of sampler ticks, given by the real times they read. -/
def run_ticks (fuel : Nat) : State → List ℚ → Res Unit
  | s, [] => .ok s ()
  | s, real :: rest => (sampler fuel s real).bind fun s1 _ => run_ticks fuel s1 rest

/-- The values of `sampled_time` and `sampled_memory` the ticks of
`run_ticks` leave, in order, up to the first tick that does not return. -/
def sampled_values (fuel : Nat) : State → List ℚ → List (ℚ × ℚ)
  | _, [] => []
  | s, real :: rest =>
    match sampler fuel s real with
    | .ok s1 _ => (s1.sampled_time, s1.sampled_memory) :: sampled_values fuel s1 rest
    | .abort s1 => [(s1.sampled_time, s1.sampled_memory)]
    | .fuel s1 => [(s1.sampled_time, s1.sampled_memory)]
    | .signalled s1 => [(s1.sampled_time, s1.sampled_memory)]

/-! ## Concrete inputs -/

/-- A stat file of 24 fields for `pid`: parent `ppid`, `stime` and `utime`
jiffies, `rss` resident pages; the command name and the state letter are no
numbers, the other fields are 0. -/
def stat_entry (pid ppid stime utime rss : Int) : ProcEntry :=
  { d_pid := pid,
    stat := some ([some pid, none, none, some ppid] ++ List.replicate 9 (some 0)
      ++ [some stime, some utime] ++ List.replicate 8 (some 0) ++ [some rss]) }

/-- Start state used below: `pid_max` 32768, pages of 4096 bytes, `HZ` 100,
launched child 10, supervisor 5, limits of 100 s, 100 s and 100 MB. -/
def start_state (proc : List (List ProcEntry)) : State :=
  State.init 32768 4096 100 10 5 100 100 100 proc

/-- Two observations of new pids in a row, on the start state. -/
def add_two : Res Unit :=
  (add_process (start_state []) 1 0 0 0).bind fun s1 _ =>
  add_process s1 2 1 0 0

/-- A third new pid observed after `add_two`. -/
def add_three : Res Unit :=
  add_process add_two.state 3 1 0 0

/-- A reading of `/proc`: init 1, the supervisor 5, the launched child 10 and
its three children 11, 12, 13; each of the four has used 50 + 50 jiffies and
holds 4096 resident pages. -/
def reading_family : List ProcEntry :=
  [stat_entry 1 0 0 0 4096, stat_entry 5 1 0 0 4096, stat_entry 10 5 50 50 4096,
   stat_entry 11 10 50 50 4096, stat_entry 12 10 50 50 4096,
   stat_entry 13 10 50 50 4096]

/-- First tick on `reading_family`, entered as `sampler` enters it
(`num_samples` incremented, the sampled sums reset). -/
def family_tick : Res Int :=
  sample_all_child_processes 16 { start_state [reading_family] with num_samples := 1 }

/-- A registry whose active list is 2 → 3 → 4, three children of record 1. -/
def three_children : State :=
  { start_state [] with
    active := some 2,
    process := fun i =>
      if i = 2 then { Process.zero with active := true, pid := 2, ppid := 1, next := some 3 }
      else if i = 3 then { Process.zero with active := true, pid := 3, ppid := 1, next := some 4 }
      else if i = 4 then { Process.zero with active := true, pid := 4, ppid := 1 }
      else Process.zero }

/-- A reading of `/proc` with init 1, the supervisor 5 and the launched
child 10 holding 262144 resident pages (1024 MB in pages of 4096 bytes). -/
def reading_big : List ProcEntry :=
  [stat_entry 1 0 0 0 100, stat_entry 5 1 0 0 100, stat_entry 10 5 0 0 262144]

/-- A reading of `/proc` that shows init 1 and the supervisor 5 only. -/
def reading_unrelated : List ProcEntry :=
  [stat_entry 1 0 0 0 4096, stat_entry 5 1 0 0 4096]

/-- A reading of `/proc` that shows init 1, the supervisor 5 and the launched
child 10. -/
def reading_child : List ProcEntry :=
  [stat_entry 1 0 0 0 4096, stat_entry 5 1 0 0 4096, stat_entry 10 5 50 50 4096]

/-- Two sampler ticks from the start state: the first reads
`reading_child`, the second `reading_unrelated`, so the launched child is
seen once and gone at the second tick. -/
def two_ticks : Res Unit :=
  (sampler 16 (start_state [reading_child, reading_unrelated]) 1).bind
    fun s1 _ => sampler 16 s1 2

/-- The state `two_ticks` ends in, written out, with twelve pending readings
of `/proc` that show init and the supervisor only: record 10 of the launched
child is flushed (not active, off the active list, without children), its
time 1 is in `accumulated_time`. -/
def child_gone : State :=
  { start_state (List.replicate 12 reading_unrelated) with
    active := some 1,
    num_samples := 2,
    num_samples_since_last_report := 2,
    max_time := 1,
    max_memory := 1,
    accumulated_time := 1,
    process := fun i =>
      if i = 0 then { Process.zero with child := some 1 }
      else if i = 1 then
        { Process.zero with active := true, pid := 1, ppid := 0, sampled := 2,
                            memory := 1, parent := some 0 }
      else if i = 5 then
        { Process.zero with active := true, pid := 5, ppid := 1, sampled := 2,
                            memory := 1, child := some 10 }
      else if i = 10 then
        { Process.zero with pid := 10, ppid := 5, sampled := 1, time := 1,
                            memory := 1, parent := some 5 }
      else Process.zero }

/-- A registry in which the record of the launched child 10 was never
observed: all of it is still zero. -/
def never_observed : State := start_state []

/-- The start state with one pending reading of `/proc` that shows init and
the supervisor: the launched child 10 has exited before any sample observed
it, and its record is still zero. -/
def child_unseen : State := start_state [reading_unrelated]

/-- The state `child_gone` with all of `caught_usr1_signal`,
`caught_out_of_memory` and `caught_out_of_time` set. -/
def all_caught : State :=
  { child_gone with caught_usr1_signal := true, caught_out_of_memory := true,
                    caught_out_of_time := true }

/-- The state `child_gone` with `caught_out_of_memory` and
`caught_out_of_time` set. -/
def memory_and_time_caught : State :=
  { child_gone with caught_out_of_memory := true, caught_out_of_time := true }

/-- The state `child_gone` with `caught_out_of_time` set. -/
def time_caught : State :=
  { child_gone with caught_out_of_time := true }

/-- The start state with twelve pending readings of `/proc`, each showing
init, the supervisor and the launched child 10: the child survives every
signal. -/
def child_alive : State :=
  start_state (List.replicate 12 reading_child)

/-- The start state after a failed `fork` (`child_pid` is -1), with one
pending reading of `/proc` that shows init and the supervisor. -/
def fork_failed : State :=
  { start_state [reading_unrelated] with child_pid := -1 }

/-- The start state after a failed `fork` with no reading of `/proc`
pending, so that the directory shows no entry. -/
def fork_failed_unread : State :=
  { start_state [] with child_pid := -1 }

/-- A reading of `/proc` in which the launched child 10 has used 1 s and
holds 819200 resident pages, memory 200 as `read_processes` counts it. -/
def reading_memory : List ProcEntry :=
  [stat_entry 1 0 0 0 4096, stat_entry 5 1 0 0 4096, stat_entry 10 5 50 50 819200]

/-- A reading of `/proc` in which the launched child 10 has used 200 s and
holds 819200 resident pages. -/
def reading_time : List ProcEntry :=
  [stat_entry 1 0 0 0 4096, stat_entry 5 1 0 0 4096,
   stat_entry 10 5 10000 10000 819200]

/-- The start state (limits 100 s and 100 MB) with the readings of a run in
which the launched child survives every signal: first over the space limit,
later over the time limit as well. The first tick reads `reading_memory` and
its teardown re-reads it eleven times, the second tick reads `reading_time`
and its teardown re-reads it eleven times, and eleven more re-reads are
pending for a third teardown. -/
def three_causes : State :=
  start_state (reading_memory :: List.replicate 11 reading_memory
    ++ reading_time :: List.replicate 11 reading_time
    ++ List.replicate 11 reading_time)

end Runlim

namespace Runlim

/-! ## Frame lemmas -/

theorem quiet_refl (s : State) : Quiet s s := ⟨rfl, rfl⟩

theorem quiet_trans {s t u : State} (h1 : Quiet s t) (h2 : Quiet t u) : Quiet s u :=
  ⟨h2.1.trans h1.1, h2.2.trans h1.2⟩

theorem quiet_bind {α β : Type} {s : State} {r : Res α} {k : State → α → Res β}
    (h1 : Quiet s r.state) (h2 : ∀ t a, Quiet t (k t a).state) :
    Quiet s (r.bind k).state := by
  cases r with
  | ok t a => exact quiet_trans h1 (h2 t a)
  | abort t => exact h1
  | fuel t => exact h1
  | signalled t => exact h1

theorem add_process_quiet (s : State) (pid ppid : Int) (time memory : ℚ) :
    Quiet s (add_process s pid ppid time memory).state := by
  unfold add_process
  dsimp only
  repeat' split
  all_goals exact ⟨rfl, rfl⟩

theorem read_entries_quiet (l : List ProcEntry) :
    ∀ (s : State) (res : Int), Quiet s (read_entries l s res).state := by
  induction l with
  | nil => intro s res; exact quiet_refl s
  | cons de rest ih =>
    intro s res
    unfold read_entries
    dsimp only
    repeat' split
    all_goals first
      | exact ih s res
      | exact quiet_refl s
      | exact quiet_bind (add_process_quiet _ _ _ _ _) (fun t _ => ih t _)

theorem read_processes_ctl (s : State) : (read_processes s).state.ctl = s.ctl :=
  (read_entries_quiet _ _ _).1

theorem read_processes_trace (s : State) : (read_processes s).state.trace = s.trace :=
  (read_entries_quiet _ _ _).2

theorem read_processes_quiet (s : State) : Quiet s (read_processes s).state :=
  ⟨read_processes_ctl s, read_processes_trace s⟩

theorem find_process_state (s : State) (pid : Int) : (find_process s pid).state = s := by
  unfold find_process
  repeat' split
  all_goals rfl

theorem find_process_quiet (s : State) (pid : Int) : Quiet s (find_process s pid).state := by
  rw [find_process_state]; exact quiet_refl s

theorem connect_clear_loop_quiet (n : Nat) :
    ∀ (s : State) (p : Option Nat), Quiet s (connect_clear_loop n s p).state := by
  induction n with
  | zero =>
    intro s p
    cases p <;> exact quiet_refl s
  | succ n ih =>
    intro s p
    cases p with
    | none => exact quiet_refl s
    | some p =>
      unfold connect_clear_loop
      split
      · exact quiet_refl s
      · refine quiet_bind (find_process_quiet _ _) (fun t q => ?_)
        split
        · exact quiet_refl t
        · refine quiet_bind (find_process_quiet _ _) (fun u parent => ?_)
          exact quiet_trans ⟨rfl, rfl⟩ (ih _ _)

theorem connect_link_loop_quiet (n : Nat) :
    ∀ (s : State) (p : Option Nat), Quiet s (connect_link_loop n s p).state := by
  induction n with
  | zero =>
    intro s p
    cases p <;> exact quiet_refl s
  | succ n ih =>
    intro s p
    cases p with
    | none => exact quiet_refl s
    | some p =>
      unfold connect_link_loop
      refine quiet_bind (find_process_quiet _ _) (fun t parent => ?_)
      refine quiet_trans ?_ (ih _ _)
      split <;> exact ⟨rfl, rfl⟩

theorem connect_process_tree_quiet (n : Nat) (s : State) :
    Quiet s (connect_process_tree n s).state :=
  quiet_bind (connect_clear_loop_quiet n s _) (fun t _ => connect_link_loop_quiet n t _)

theorem flush_loop_quiet (n : Nat) :
    ∀ (s : State) (prev p : Option Nat) (res : Int),
      Quiet s (flush_loop n s prev p res).state := by
  induction n with
  | zero =>
    intro s prev p res
    cases p <;> exact quiet_refl s
  | succ n ih =>
    intro s prev p res
    cases p with
    | none => exact quiet_refl s
    | some p =>
      unfold flush_loop
      split
      · exact quiet_refl s
      · split
        · exact ih _ _ _ _
        · refine quiet_trans ?_ (ih _ _ _ _)
          split <;> exact ⟨rfl, rfl⟩

theorem sample_walk_quiet (n : Nat) :
    (∀ (s : State) (p : Nat), Quiet s (sample_recursively n s p).state) ∧
    (∀ (s : State) (c : Option Nat) (res : Int),
      Quiet s (sample_children n s c res).state) := by
  induction n with
  | zero =>
    constructor
    · intro s p; exact quiet_refl s
    · intro s c res; cases c <;> exact quiet_refl s
  | succ n ih =>
    constructor
    · intro s p
      unfold sample_recursively
      split
      · exact quiet_refl s
      · refine quiet_trans ?_ (quiet_bind (ih.2 _ _ _) (fun t r => ?_))
        · split <;> exact ⟨rfl, rfl⟩
        · split
          · exact quiet_refl t
          · exact ⟨rfl, rfl⟩
    · intro s c res
      cases c with
      | none => exact quiet_refl s
      | some c =>
        unfold sample_children
        exact quiet_bind (ih.1 _ _) (fun t r => ih.2 _ _ _)

theorem sample_all_child_processes_quiet (n : Nat) (s : State) :
    Quiet s (sample_all_child_processes n s).state := by
  unfold sample_all_child_processes
  refine quiet_bind (read_processes_quiet s) (fun s1 read => ?_)
  refine quiet_bind (connect_process_tree_quiet n s1) (fun s2 _ => ?_)
  refine quiet_bind ?_ (fun s4 sampled => ?_)
  · split
    · exact quiet_bind (find_process_quiet _ _) (fun s3 p => (sample_walk_quiet n).1 _ _)
    · exact quiet_refl s2
  · exact quiet_bind (flush_loop_quiet n s4 _ _ _) (fun s5 _ => quiet_refl s5)

theorem spared_refl (s : State) : Spared s s := ⟨rfl, fun _ _ h => Or.inl h⟩

theorem spared_trans {s t u : State} (h1 : Spared s t) (h2 : Spared t u) : Spared s u := by
  refine ⟨h2.1.trans h1.1, fun pid sig h => ?_⟩
  rcases h2.2 pid sig h with h3 | h3
  · exact h1.2 pid sig h3
  · have hp : t.parent_pid = s.parent_pid := congrArg Ctl.parent_pid h1.1
    exact Or.inr (hp ▸ h3)

theorem spared_of_quiet {s t : State} (h : Quiet s t) : Spared s t :=
  ⟨h.1, fun _ _ hm => Or.inl (h.2 ▸ hm)⟩

theorem spared_bind {α β : Type} {s : State} {r : Res α} {k : State → α → Res β}
    (h1 : Spared s r.state) (h2 : ∀ t a, Spared t (k t a).state) :
    Spared s (r.bind k).state := by
  cases r with
  | ok t a => exact spared_trans h1 (h2 t a)
  | abort t => exact h1
  | fuel t => exact h1
  | signalled t => exact h1

theorem sys_usleep_spared (s : State) (us : Int) : Spared s (sys_usleep s us) := by
  refine ⟨rfl, fun pid sig h => Or.inl ?_⟩
  simpa [sys_usleep] using h

theorem sys_kill_spared (s : State) (pid : Int) (sig : Signal) (h : pid ≠ s.parent_pid) :
    Spared s (sys_kill s pid sig).state := by
  have hst : (sys_kill s pid sig).state
      = { s with trace := s.trace ++ [Event.kill pid sig] } := by
    unfold sys_kill
    split <;> rfl
  rw [hst]
  refine ⟨rfl, fun pid1 sig1 hm => ?_⟩
  simp only [List.mem_append, List.mem_singleton] at hm
  rcases hm with hm | hm
  · exact Or.inl hm
  · cases hm; exact Or.inr h

theorem term_process_spared (s : State) (p : Nat) : Spared s (term_process s p).state := by
  unfold term_process
  split
  · exact spared_refl s
  · next h => exact sys_kill_spared s _ _ (by simpa using h)

theorem kill_process_spared (s : State) (p : Nat) : Spared s (kill_process s p).state := by
  unfold kill_process
  split
  · exact spared_refl s
  · next h => exact sys_kill_spared s _ _ (by simpa using h)

theorem kill_walk_spared (killer : State → Nat → Res Unit)
    (hk : ∀ s p, Spared s (killer s p).state) (n : Nat) :
    (∀ (s : State) (p : Nat), Spared s (kill_recursively n killer s p).state) ∧
    (∀ (s : State) (c : Option Nat) (res : Int),
      Spared s (kill_children n killer s c res).state) := by
  induction n with
  | zero =>
    constructor
    · intro s p; exact spared_refl s
    · intro s c res; cases c <;> exact spared_refl s
  | succ n ih =>
    constructor
    · intro s p
      unfold kill_recursively
      split
      · exact spared_refl s
      · refine spared_trans (spared_of_quiet ⟨rfl, rfl⟩) (spared_bind (ih.2 _ _ _) (fun t r => ?_))
        split
        · exact spared_refl t
        · refine spared_trans (spared_of_quiet ⟨rfl, rfl⟩) ?_
          refine spared_trans (sys_usleep_spared _ 100) ?_
          exact spared_bind (hk _ _) (fun u _ => spared_refl u)
    · intro s c res
      cases c with
      | none => exact spared_refl s
      | some c =>
        unfold kill_children
        exact spared_bind (ih.1 _ _) (fun t r => ih.2 _ _ _)

theorem kill_all_loop_spared (n : Nat) :
    ∀ (s : State) (ms rounds : Int), Spared s (kill_all_loop n s ms rounds).state := by
  induction n with
  | zero => intro s ms rounds; exact spared_refl s
  | succ n ih =>
    intro s ms rounds
    unfold kill_all_loop
    refine spared_trans (sys_usleep_spared s ms) ?_
    refine spared_bind (spared_of_quiet (read_processes_quiet _)) (fun s2 read => ?_)
    refine spared_bind ?_ (fun s5 killed => ?_)
    · split
      · refine spared_bind (spared_of_quiet (connect_process_tree_quiet n s2)) (fun s3 _ => ?_)
        refine spared_bind (spared_of_quiet (find_process_quiet _ _)) (fun s4 p => ?_)
        split
        · exact (kill_walk_spared term_process term_process_spared n).1 _ _
        · exact (kill_walk_spared kill_process kill_process_spared n).1 _ _
      · exact spared_refl s2
    · dsimp only
      split
      · exact ih _ _ _
      · exact spared_refl s5

theorem kill_all_child_processes_spared (n : Nat) (s : State) :
    Spared s (kill_all_child_processes n s).state :=
  kill_all_loop_spared n s _ _

/-! ## Sampler -/

theorem sampler_rest_time_breach (fuel : Nat) (real : ℚ) (s3 : State) (sampled : Int)
    (hs : 0 < sampled)
    (hb : (s3.time_limit : ℚ) < s3.sampled_time ∨ (s3.real_time_limit : ℚ) < real) :
    (sampler_rest fuel real s3 sampled).state.caught_out_of_time = true ∧
    (sampler_rest fuel real s3 sampled).state.caught_out_of_memory
      = s3.caught_out_of_memory := by
  unfold sampler_rest
  dsimp only
  rw [if_pos hs, if_pos hs]
  split_ifs <;>
    first
    | exact ⟨rfl, rfl⟩
    | exact ⟨congrArg Ctl.caught_out_of_time (kill_all_child_processes_spared fuel _).1,
        congrArg Ctl.caught_out_of_memory (kill_all_child_processes_spared fuel _).1⟩

theorem sampler_rest_memory_breach (fuel : Nat) (real : ℚ) (s3 : State) (sampled : Int)
    (hs : 0 < sampled)
    (hb : ¬ ((s3.time_limit : ℚ) < s3.sampled_time ∨ (s3.real_time_limit : ℚ) < real))
    (hm : (s3.space_limit : ℚ) < s3.sampled_memory) :
    (sampler_rest fuel real s3 sampled).state.caught_out_of_memory = true ∧
    (sampler_rest fuel real s3 sampled).state.caught_out_of_time
      = s3.caught_out_of_time := by
  unfold sampler_rest
  dsimp only
  rw [if_pos hs, if_pos hs]
  split_ifs <;>
    first
    | exact ⟨rfl, rfl⟩
    | exact ⟨congrArg Ctl.caught_out_of_memory (kill_all_child_processes_spared fuel _).1,
        congrArg Ctl.caught_out_of_time (kill_all_child_processes_spared fuel _).1⟩

theorem sampler_rest_no_breach (fuel : Nat) (real : ℚ) (s3 : State) (sampled : Int)
    (hs : 0 < sampled)
    (hb : ¬ ((s3.time_limit : ℚ) < s3.sampled_time ∨ (s3.real_time_limit : ℚ) < real))
    (hm : ¬ ((s3.space_limit : ℚ) < s3.sampled_memory)) :
    (sampler_rest fuel real s3 sampled).state.latches = s3.latches ∧
    (sampler_rest fuel real s3 sampled).state.trace = s3.trace ∧
    (sampler_rest fuel real s3 sampled).isOk = true := by
  unfold sampler_rest
  dsimp only
  rw [if_pos hs, if_pos hs]
  split_ifs <;> exact ⟨rfl, rfl, rfl⟩

theorem sampler_rest_not_sampled (fuel : Nat) (real : ℚ) (s3 : State) (sampled : Int)
    (hs : sampled ≤ 0) :
    (sampler_rest fuel real s3 sampled).state.latches = s3.latches ∧
    (sampler_rest fuel real s3 sampled).state.trace = s3.trace ∧
    (sampler_rest fuel real s3 sampled).isOk = true := by
  have hs2 : ¬ (sampled > 0) := not_lt.mpr hs
  unfold sampler_rest
  dsimp only
  rw [if_neg hs2, if_neg hs2]
  split_ifs <;> exact ⟨rfl, rfl, rfl⟩

theorem value_eq_some {α : Type} {r : Res α} {a : α} (h : r.value = some a) :
    r = Res.ok r.state a := by
  cases r with
  | ok s b =>
    have hb : b = a := by simpa [Res.value] using h
    rw [hb]; rfl
  | abort s => simp [Res.value] at h
  | fuel s => simp [Res.value] at h
  | signalled s => simp [Res.value] at h

theorem isOk_eq_ok {r : Res Unit} (h : r.isOk = true) : r = Res.ok r.state () := by
  cases r with
  | ok s b => rfl
  | abort s => simp [Res.isOk] at h
  | fuel s => simp [Res.isOk] at h
  | signalled s => simp [Res.isOk] at h

/-- C5 (amended): in a tick whose `sample_all_child_processes` returns
`sampled > 0`, `caught_out_of_time` is latched when `sampled_time >
time_limit` or the real time exceeds `real_time_limit`; otherwise
`caught_out_of_memory` is latched when `sampled_memory > space_limit`, and
with `sampled_memory ≤ space_limit` no latch changes, no system call is made
and the sampler returns. In a tick with `sampled ≤ 0` no latch changes and no
system call is made, whatever the times and the memory are. -/
theorem sampler_limit_check (fuel : Nat) (s : State) (real : ℚ) (sampled : Int)
    (h : (sample_all_child_processes fuel (tick_entry s)).value = some sampled) :
    (0 < sampled →
      ((s.time_limit : ℚ) < (sample_all_child_processes fuel (tick_entry s)).state.sampled_time
        ∨ (s.real_time_limit : ℚ) < real) →
      (sampler fuel s real).state.caught_out_of_time = true ∧
      (sampler fuel s real).state.caught_out_of_memory = s.caught_out_of_memory) ∧
    (0 < sampled →
      ¬ ((s.time_limit : ℚ) < (sample_all_child_processes fuel (tick_entry s)).state.sampled_time
        ∨ (s.real_time_limit : ℚ) < real) →
      (s.space_limit : ℚ) < (sample_all_child_processes fuel (tick_entry s)).state.sampled_memory →
      (sampler fuel s real).state.caught_out_of_memory = true ∧
      (sampler fuel s real).state.caught_out_of_time = s.caught_out_of_time) ∧
    (0 < sampled →
      ¬ ((s.time_limit : ℚ) < (sample_all_child_processes fuel (tick_entry s)).state.sampled_time
        ∨ (s.real_time_limit : ℚ) < real) →
      ¬ ((s.space_limit : ℚ) < (sample_all_child_processes fuel (tick_entry s)).state.sampled_memory) →
      (sampler fuel s real).state.latches = s.latches ∧
      (sampler fuel s real).state.trace = s.trace ∧
      (sampler fuel s real).isOk = true) ∧
    (sampled ≤ 0 →
      (sampler fuel s real).state.latches = s.latches ∧
      (sampler fuel s real).state.trace = s.trace ∧
      (sampler fuel s real).isOk = true) := by
  have hq := sample_all_child_processes_quiet fuel (tick_entry s)
  have hr := value_eq_some h
  generalize (sample_all_child_processes fuel (tick_entry s)).state = s3 at hq hr ⊢
  have hsam : sampler fuel s real = sampler_rest fuel real s3 sampled := by
    unfold sampler; rw [hr]; rfl
  have htl : s3.time_limit = s.time_limit := congrArg Ctl.time_limit hq.1
  have hrl : s3.real_time_limit = s.real_time_limit := congrArg Ctl.real_time_limit hq.1
  have hsl : s3.space_limit = s.space_limit := congrArg Ctl.space_limit hq.1
  have hcm : s3.caught_out_of_memory = s.caught_out_of_memory :=
    congrArg Ctl.caught_out_of_memory hq.1
  have hct : s3.caught_out_of_time = s.caught_out_of_time :=
    congrArg Ctl.caught_out_of_time hq.1
  have hl : s3.latches = s.latches := by
    have h1 : s3.caught_usr1_signal = s.caught_usr1_signal :=
      congrArg Ctl.caught_usr1_signal hq.1
    have h2 : s3.caught_other_signal = s.caught_other_signal :=
      congrArg Ctl.caught_other_signal hq.1
    simp only [State.latches, hcm, hct, h1, h2]
  have htr : s3.trace = s.trace := hq.2
  rw [hsam, ← htl, ← hrl, ← hsl, ← hcm, ← hct, ← hl, ← htr]
  exact ⟨sampler_rest_time_breach fuel real s3 sampled,
    sampler_rest_memory_breach fuel real s3 sampled,
    sampler_rest_no_breach fuel real s3 sampled,
    sampler_rest_not_sampled fuel real s3 sampled⟩

/-- C5, witness: a tick that samples the launched child within all limits
changes no latch and makes no system call. -/
theorem sampler_limit_check_witness :
    (sample_all_child_processes 16 (tick_entry (start_state [reading_child]))).value = some 1 ∧
    (sampler 16 (start_state [reading_child]) 1).state.latches
      = (start_state [reading_child]).latches ∧
    (sampler 16 (start_state [reading_child]) 1).state.trace = [] ∧
    (sampler 16 (start_state [reading_child]) 1).isOk = true :=
  ⟨by decide!,
   (sampler_limit_check 16 (start_state [reading_child]) 1 1 (by decide!)).2.2.1
     (by decide) (by decide!) (by decide!)⟩

/-- C5, counterexample: a tick that reads init and the supervisor only
samples and flushes nothing; the real time 200 s is over `real_time_limit`
100 s, yet `caught_out_of_time` stays unset. -/
theorem sampler_skips_limits_without_sample :
    (sample_all_child_processes 16 (tick_entry (start_state [reading_unrelated]))).value
      = some 0 ∧
    ((start_state [reading_unrelated]).real_time_limit : ℚ) < 200 ∧
    (sampler 16 (start_state [reading_unrelated]) 200).isOk = true ∧
    (sampler 16 (start_state [reading_unrelated]) 200).state.caught_out_of_time = false := by
  decide!

/-! ## Classification in `main` -/

theorem main_exit_of_ctl (s s1 : State) (status : WaitStatus) (real : ℚ)
    (h : s1.ctl = s.ctl) : main_exit s s1 status real = main_exit s s status real := by
  have h1 : s1.max_time = s.max_time := congrArg Ctl.max_time h
  have h2 : s1.time_limit = s.time_limit := congrArg Ctl.time_limit h
  have h3 : s1.real_time_limit = s.real_time_limit := congrArg Ctl.real_time_limit h
  have h4 : s1.propagate_signals = s.propagate_signals := congrArg Ctl.propagate_signals h
  unfold main_exit
  rw [h1, h2, h3, h4]

theorem main_of_teardown (fuel : Nat) (s : State) (status : WaitStatus) (real : ℚ)
    (h0 : s.child_pid ≠ 0) (hk : (kill_all_child_processes fuel s).isOk = true) :
    main fuel s status real =
      Res.ok (kill_all_child_processes fuel s).state (some (main_exit s s status real)) := by
  have hsp := (kill_all_child_processes_spared fuel s).1
  have hr := isOk_eq_ok hk
  generalize (kill_all_child_processes fuel s).state = s1 at hsp hr ⊢
  unfold main
  rw [if_pos h0, hr]
  simp only [Res.bind, main_exit_of_ctl s s1 status real hsp]

theorem main_report_of_teardown (fuel : Nat) (s : State) (status : WaitStatus) (real : ℚ)
    (h0 : s.child_pid ≠ 0) (hk : (kill_all_child_processes fuel s).isOk = true) :
    main_report fuel s status real =
      some ((main_exit s s status real).description, (main_exit s s status real).res) := by
  unfold main_report
  rw [main_of_teardown fuel s status real h0 hk]

/-- When the launched child exits normally with code `c`, no latch is set,
neither override condition holds and the final teardown returns, `main`
reports `ok` and returns 0, whatever `c` is: the `switch (ok)` overwrites
the `res` taken from `WEXITSTATUS`. -/
theorem main_normal_exit_returns_zero (fuel : Nat) (s : State) (c : Int) (real : ℚ)
    (hpid : 0 < s.child_pid)
    (husr1 : s.caught_usr1_signal = false)
    (hmem : s.caught_out_of_memory = false)
    (htime : s.caught_out_of_time = false)
    (hover : ¬ (s.max_time ≥ (s.time_limit : ℚ) ∨ real ≥ (s.real_time_limit : ℚ)))
    (hk : (kill_all_child_processes fuel s).isOk = true) :
    (main fuel s (WaitStatus.exited c) real).value =
      some (some { description := Description.text "ok", res := 0, ok := Status.OK,
                   raised := none }) := by
  rw [main_of_teardown fuel s _ real (ne_of_gt hpid) hk]
  have hneg : ¬ (s.child_pid < 0) := not_lt.mpr (le_of_lt hpid)
  simp only [Res.value, main_exit, wait_outcome, latched_status, husr1, hmem, htime, hover,
    hneg, if_false, describe, propagated]
  cases s.propagate_signals <;> rfl

/-- An instance of `main_normal_exit_returns_zero`: a child that exits with
code 0 under no latch and no override. -/
theorem main_normal_exit_returns_zero_witness :
    (main 4 (start_state []) (WaitStatus.exited 0) 1).value =
      some (some { description := Description.text "ok", res := 0, ok := Status.OK,
                   raised := none }) :=
  main_normal_exit_returns_zero 4 (start_state []) 0 1 (by decide) rfl rfl rfl
    (by decide!) (by decide!)

/-- C6: the launched child exits normally with code 3, no latch is set and
no override holds; `main` reports `ok` but returns 0, not 3. -/
theorem main_drops_child_exit_code :
    (start_state []).latches = (false, false, false, false) ∧
    ¬ ((start_state []).max_time ≥ ((start_state []).time_limit : ℚ)
        ∨ (1 : ℚ) ≥ ((start_state []).real_time_limit : ℚ)) ∧
    main_report 4 (start_state []) (WaitStatus.exited 3) 1
      = some (Description.text "ok", 0) ∧
    main_report 4 (start_state []) (WaitStatus.exited 3) 1
      ≠ some (Description.text "ok", 3) := by
  decide!

/-- When the launched child died by a signal `sig` other than SIGXFSZ,
SIGXCPU, SIGSEGV and SIGBUS, no latch is set, neither override condition
holds and the final teardown returns, `main` reports `signal(sig)` with
status OTHER_SIGNAL and returns 11, whatever `sig` is: the `switch (ok)`
overwrites the `res` set to `128 + s`. Under `propagate_signals` it raises
`sig` before. -/
theorem main_other_signal_returns_eleven (fuel : Nat) (s : State) (sig : Int) (real : ℚ)
    (hsig : sig ≠ SIGXFSZ ∧ sig ≠ SIGXCPU ∧ sig ≠ SIGSEGV ∧ sig ≠ SIGBUS)
    (hpid : 0 < s.child_pid)
    (husr1 : s.caught_usr1_signal = false)
    (hmem : s.caught_out_of_memory = false)
    (htime : s.caught_out_of_time = false)
    (hover : ¬ (s.max_time ≥ (s.time_limit : ℚ) ∨ real ≥ (s.real_time_limit : ℚ)))
    (hk : (kill_all_child_processes fuel s).isOk = true) :
    (main fuel s (WaitStatus.signaled sig) real).value =
      some (some { description := Description.signal sig, res := 11,
                   ok := Status.OTHER_SIGNAL,
                   raised := if s.propagate_signals then some sig else none }) := by
  rw [main_of_teardown fuel s _ real (ne_of_gt hpid) hk]
  have hneg : ¬ (s.child_pid < 0) := not_lt.mpr (le_of_lt hpid)
  obtain ⟨g1, g2, g3, g4⟩ := hsig
  simp only [Res.value, main_exit, wait_outcome, latched_status, husr1, hmem, htime, hover,
    hneg, if_false, describe, propagated, status_of_signal, g1, g2, g3, g4]
  cases s.propagate_signals <;> rfl

/-- An instance of `main_other_signal_returns_eleven`: a child killed by
signal 15 (SIGTERM) under no latch and no override. -/
theorem main_other_signal_returns_eleven_witness :
    (main 4 (start_state []) (WaitStatus.signaled 15) 1).value =
      some (some { description := Description.signal 15, res := 11,
                   ok := Status.OTHER_SIGNAL, raised := none }) :=
  main_other_signal_returns_eleven 4 (start_state []) 15 1 (by decide) (by decide) rfl
    rfl rfl (by decide!) (by decide!)

/-- C7: the launched child died by signal 9 (SIGKILL), no latch is set and
no override holds; `main` reports `signal(9)` but returns 11, not
128 + 9. -/
theorem main_drops_signal_exit_code :
    (start_state []).latches = (false, false, false, false) ∧
    ¬ ((start_state []).max_time ≥ ((start_state []).time_limit : ℚ)
        ∨ (1 : ℚ) ≥ ((start_state []).real_time_limit : ℚ)) ∧
    main_report 4 (start_state []) (WaitStatus.signaled 9) 1
      = some (Description.signal 9, 11) ∧
    main_report 4 (start_state []) (WaitStatus.signaled 9) 1
      ≠ some (Description.signal 9, 128 + 9) := by
  decide!

/-- C8: for every wait status and all latches, in every run whose final
teardown returns (it does not when it fails an assertion or signals the
process group of the supervisor itself): under an override condition
(`max_time >= time_limit` or real time `>= real_time_limit`) `main` reports
`out of time` and returns 2; otherwise with `caught_usr1_signal` it reports
`execvp failed` and returns 1, else with `caught_out_of_memory` it reports
`out of memory` and returns 3, else with `caught_out_of_time` it reports
`out of time` and returns 2. -/
theorem main_latch_priority (fuel : Nat) (s : State) (status : WaitStatus) (real : ℚ)
    (h0 : s.child_pid ≠ 0) (hk : (kill_all_child_processes fuel s).isOk = true) :
    ((s.max_time ≥ (s.time_limit : ℚ) ∨ real ≥ (s.real_time_limit : ℚ)) →
      main_report fuel s status real = some (Description.text "out of time", 2)) ∧
    (¬ (s.max_time ≥ (s.time_limit : ℚ) ∨ real ≥ (s.real_time_limit : ℚ)) →
      s.caught_usr1_signal = true →
      main_report fuel s status real = some (Description.text "execvp failed", 1)) ∧
    (¬ (s.max_time ≥ (s.time_limit : ℚ) ∨ real ≥ (s.real_time_limit : ℚ)) →
      s.caught_usr1_signal = false → s.caught_out_of_memory = true →
      main_report fuel s status real = some (Description.text "out of memory", 3)) ∧
    (¬ (s.max_time ≥ (s.time_limit : ℚ) ∨ real ≥ (s.real_time_limit : ℚ)) →
      s.caught_usr1_signal = false → s.caught_out_of_memory = false →
      s.caught_out_of_time = true →
      main_report fuel s status real = some (Description.text "out of time", 2)) := by
  rw [main_report_of_teardown fuel s status real h0 hk]
  refine ⟨fun hover => ?_, fun hover h1 => ?_, fun hover h1 h2 => ?_,
    fun hover h1 h2 h3 => ?_⟩
  · simp only [main_exit, hover, if_true]
  · simp only [main_exit, hover, if_false, latched_status, h1, if_true, describe]
  · simp [main_exit, hover, latched_status, h1, h2, describe]
  · simp [main_exit, hover, latched_status, h1, h2, h3, describe]

/-- C8, witness: each of the four cases on a run whose launched child was
sampled and is gone, so that the final teardown signals pid 10 in its eleven
rounds and returns: an override by real time on a clean exit, then, without
override, all three latches set on a child killed by SIGSEGV, the memory and
time latches set, and the time latch alone. -/
theorem main_latch_priority_witness :
    main_report 16 child_gone (WaitStatus.exited 0) 100
      = some (Description.text "out of time", 2) ∧
    main_report 16 all_caught (WaitStatus.signaled 11) 3
      = some (Description.text "execvp failed", 1) ∧
    main_report 16 memory_and_time_caught (WaitStatus.signaled 11) 3
      = some (Description.text "out of memory", 3) ∧
    main_report 16 time_caught (WaitStatus.exited 0) 3
      = some (Description.text "out of time", 2) :=
  ⟨(main_latch_priority 16 child_gone (WaitStatus.exited 0) 100
      (by decide) (by decide!)).1 (by decide!),
   (main_latch_priority 16 all_caught (WaitStatus.signaled 11) 3
      (by decide) (by decide!)).2.1 (by decide!) rfl,
   (main_latch_priority 16 memory_and_time_caught (WaitStatus.signaled 11) 3
      (by decide) (by decide!)).2.2.1 (by decide!) rfl rfl,
   (main_latch_priority 16 time_caught (WaitStatus.exited 0) 3
      (by decide) (by decide!)).2.2.2 (by decide!) rfl rfl rfl⟩

/-! ## Killer -/

theorem killer_abort_of_parent_pid (s : State) (p : Nat)
    (h : (s.process p).pid = s.parent_pid) :
    (term_process s p).isAbort = true ∧ (term_process s p).state.trace = s.trace ∧
    (kill_process s p).isAbort = true ∧ (kill_process s p).state.trace = s.trace := by
  unfold term_process kill_process
  simp [h, Res.isAbort, Res.state]

/-- For every registry state, every record `p` and either killer, no `kill`
call made by the walk `kill_recursively` started at `p` has the pid
`parent_pid`: `term_process` and `kill_process` stop at their assertion
`p->pid != parent_pid` before they signal such a record. -/
theorem kill_recursively_spares_parent_pid :
    (∀ (fuel : Nat) (s : State) (p : Nat) (pid : Int) (sig : Signal),
      Event.kill pid sig ∈ (kill_recursively fuel term_process s p).state.trace →
      Event.kill pid sig ∈ s.trace ∨ pid ≠ s.parent_pid) ∧
    (∀ (fuel : Nat) (s : State) (p : Nat) (pid : Int) (sig : Signal),
      Event.kill pid sig ∈ (kill_recursively fuel kill_process s p).state.trace →
      Event.kill pid sig ∈ s.trace ∨ pid ≠ s.parent_pid) ∧
    (∀ (s : State) (p : Nat), (s.process p).pid = s.parent_pid →
      (term_process s p).isAbort = true ∧ (term_process s p).state.trace = s.trace ∧
      (kill_process s p).isAbort = true ∧ (kill_process s p).state.trace = s.trace) :=
  ⟨fun fuel s p => ((kill_walk_spared term_process term_process_spared fuel).1 s p).2,
   fun fuel s p => ((kill_walk_spared kill_process kill_process_spared fuel).1 s p).2,
   killer_abort_of_parent_pid⟩

/-- C9: the record of the launched child 10 was never observed, so its `pid`
field is still 0, and `/proc` shows init and the supervisor. The walk started
at that record calls `kill (0, SIGTERM)`, which signals the process group of
the supervisor itself: the assertion `p->pid != parent_pid` (0 is not 5) does
not refuse the record. The first round of `kill_all_child_processes` makes
that call, and `main`, whose child exited with code 0 before any sample,
makes it in its final teardown and reports nothing. -/
theorem kill_walk_signals_own_group :
    (never_observed.process 10).pid = 0 ∧
    never_observed.parent_pid = 5 ∧
    (kill_recursively 8 term_process never_observed 10).isSignalled = true ∧
    kills (kill_recursively 8 term_process never_observed 10).state.trace
      = [(0, Signal.SIGTERM)] ∧
    (read_processes (sys_usleep child_unseen 160000)).value = some 2 ∧
    (kill_all_child_processes 16 child_unseen).isSignalled = true ∧
    kills (kill_all_child_processes 16 child_unseen).state.trace
      = [(0, Signal.SIGTERM)] ∧
    (main 16 child_unseen (WaitStatus.exited 0) 1).isSignalled = true ∧
    kills (main 16 child_unseen (WaitStatus.exited 0) 1).state.trace
      = [(0, Signal.SIGTERM)] ∧
    main_report 16 child_unseen (WaitStatus.exited 0) 1 = none := by
  decide!

/-- C10: two ticks in which the launched child 10 is seen and then gone
lead to the state `child_gone`, whose record 10 is flushed, off the active
list and without children. With every re-read showing init and the
supervisor only, `kill_all_child_processes` runs eleven rounds and calls
`kill` on pid 10 in each: seven times SIGTERM, four times SIGKILL. -/
theorem kill_all_signals_empty_subtree :
    (two_ticks.isOk = true ∧
     two_ticks.state.ctl = child_gone.ctl ∧
     two_ticks.state.active = child_gone.active ∧
     two_ticks.state.trace = child_gone.trace ∧
     ∀ i ∈ [0, 1, 5, 10], two_ticks.state.process i = child_gone.process i) ∧
    (child_gone.process 10).active = false ∧
    child_gone.active_list 8 = [1] ∧
    child_gone.children 8 10 = [] ∧
    child_gone.trace = [] ∧
    (kill_all_child_processes 16 child_gone).isOk = true ∧
    kills (kill_all_child_processes 16 child_gone).state.trace
      = List.replicate 7 (10, Signal.SIGTERM) ++ List.replicate 4 (10, Signal.SIGKILL) ∧
    round_sleeps (kill_all_child_processes 16 child_gone).state.trace
      = [160000, 80000, 40000, 20000, 10000, 5000, 2500, 1250, 625, 625, 625] := by
  decide!

/-! ## Registry and tree -/

/-- C2: on the active list 1 → 2 built by two observations, `add_process`
for the new pid 3 (record 3 not active) leaves the list 1 → 3; record 2 is
still active but no longer on the list, which has two records after three
new pids. -/
theorem add_process_loses_second_record :
    add_two.isOk = true ∧
    add_two.state.active_list 8 = [1, 2] ∧
    (add_two.state.process 3).active = false ∧
    add_three.isOk = true ∧
    add_three.state.active_list 8 = [1, 3] ∧
    (add_three.state.process 2).active = true := by
  decide!

/-- C3: on the active list 2 → 3 → 4 of three children of record 1,
`connect_process_tree` sets the parent of each to record 1 but leaves the
sibling chain of record 1 as 2 → 4; record 3 is not on it. -/
theorem connect_process_tree_loses_middle_child :
    (connect_process_tree 8 three_children).isOk = true ∧
    (connect_process_tree 8 three_children).state.active_list 8 = [2, 3, 4] ∧
    ((connect_process_tree 8 three_children).state.process 3).parent = some 1 ∧
    ((connect_process_tree 8 three_children).state.process 3).ppid = 1 ∧
    (connect_process_tree 8 three_children).state.children 8 1 = [2, 4] := by
  decide!

/-- C1: a tick that observes the launched child 10 and its children 11, 12,
13, each with 1 s and memory 1, all four fresh in this tick, samples 2 and 2
instead of the sums 4 and 4. -/
theorem sample_misses_observed_children :
    family_tick.value = some 2 ∧
    family_tick.state.sampled_time = 2 ∧
    family_tick.state.sampled_memory = 2 ∧
    (∀ i ∈ [10, 11, 12, 13],
      (family_tick.state.process i).sampled = family_tick.state.num_samples ∧
      (family_tick.state.process i).time = 1 ∧
      (family_tick.state.process i).memory = 1) ∧
    (∀ i ∈ [11, 12, 13], (family_tick.state.process i).ppid = 10) := by
  decide!

/-- C4: with pages of 4096 bytes a process of 262144 resident pages (1024 MB)
is handed to `add_process` with memory 64. -/
theorem read_processes_memory_not_megabytes :
    (read_processes (start_state [reading_big])).value = some 3 ∧
    ((read_processes (start_state [reading_big])).state.process 10).memory = 64 ∧
    ((262144 : ℚ) * 4096) / 2 ^ 20 = 1024 := by
  decide!

/-! ## Sampled sums and round sleeps -/

theorem round_sleeps_append (a b : List Event) :
    round_sleeps (a ++ b) = round_sleeps a ++ round_sleeps b := by
  induction a with
  | nil => rfl
  | cons e t ih =>
    cases e with
    | kill pid sig => simpa [round_sleeps] using ih
    | usleep us =>
      by_cases h : us = 100
      · simpa [round_sleeps, h] using ih
      · simp [round_sleeps, h, ih]

theorem steady_refl (s : State) : Steady s s := ⟨rfl, rfl, rfl⟩

theorem steady_trans {s t u : State} (h1 : Steady s t) (h2 : Steady t u) : Steady s u :=
  ⟨h2.1.trans h1.1, h2.2.1.trans h1.2.1, h2.2.2.trans h1.2.2⟩

theorem steady_bind {α β : Type} {s : State} {r : Res α} {k : State → α → Res β}
    (h1 : Steady s r.state) (h2 : ∀ t a, Steady t (k t a).state) :
    Steady s (r.bind k).state := by
  cases r with
  | ok t a => exact steady_trans h1 (h2 t a)
  | abort t => exact h1
  | fuel t => exact h1
  | signalled t => exact h1

theorem add_process_steady (s : State) (pid ppid : Int) (time memory : ℚ) :
    Steady s (add_process s pid ppid time memory).state := by
  unfold add_process
  dsimp only
  repeat' split
  all_goals exact ⟨rfl, rfl, rfl⟩

theorem read_entries_steady (l : List ProcEntry) :
    ∀ (s : State) (res : Int), Steady s (read_entries l s res).state := by
  induction l with
  | nil => intro s res; exact steady_refl s
  | cons de rest ih =>
    intro s res
    unfold read_entries
    dsimp only
    repeat' split
    all_goals first
      | exact ih s res
      | exact steady_refl s
      | exact steady_bind (add_process_steady _ _ _ _ _) (fun t _ => ih t _)

theorem read_processes_steady (s : State) : Steady s (read_processes s).state :=
  steady_trans ⟨rfl, rfl, rfl⟩ (read_entries_steady _ _ _)

theorem find_process_steady (s : State) (pid : Int) :
    Steady s (find_process s pid).state := by
  rw [find_process_state]; exact steady_refl s

theorem connect_clear_loop_steady (n : Nat) :
    ∀ (s : State) (p : Option Nat), Steady s (connect_clear_loop n s p).state := by
  induction n with
  | zero =>
    intro s p
    cases p <;> exact steady_refl s
  | succ n ih =>
    intro s p
    cases p with
    | none => exact steady_refl s
    | some p =>
      unfold connect_clear_loop
      split
      · exact steady_refl s
      · refine steady_bind (find_process_steady _ _) (fun t q => ?_)
        split
        · exact steady_refl t
        · refine steady_bind (find_process_steady _ _) (fun u parent => ?_)
          exact steady_trans ⟨rfl, rfl, rfl⟩ (ih _ _)

theorem connect_link_loop_steady (n : Nat) :
    ∀ (s : State) (p : Option Nat), Steady s (connect_link_loop n s p).state := by
  induction n with
  | zero =>
    intro s p
    cases p <;> exact steady_refl s
  | succ n ih =>
    intro s p
    cases p with
    | none => exact steady_refl s
    | some p =>
      unfold connect_link_loop
      refine steady_bind (find_process_steady _ _) (fun t parent => ?_)
      refine steady_trans ?_ (ih _ _)
      split <;> exact ⟨rfl, rfl, rfl⟩

theorem connect_process_tree_steady (n : Nat) (s : State) :
    Steady s (connect_process_tree n s).state :=
  steady_bind (connect_clear_loop_steady n s _) (fun t _ => connect_link_loop_steady n t _)

theorem flush_loop_steady (n : Nat) :
    ∀ (s : State) (prev p : Option Nat) (res : Int),
      Steady s (flush_loop n s prev p res).state := by
  induction n with
  | zero =>
    intro s prev p res
    cases p <;> exact steady_refl s
  | succ n ih =>
    intro s prev p res
    cases p with
    | none => exact steady_refl s
    | some p =>
      unfold flush_loop
      split
      · exact steady_refl s
      · split
        · exact ih _ _ _ _
        · refine steady_trans ?_ (ih _ _ _ _)
          split <;> exact ⟨rfl, rfl, rfl⟩

theorem sys_kill_steady (s : State) (pid : Int) (sig : Signal) :
    Steady s (sys_kill s pid sig).state := by
  have hst : (sys_kill s pid sig).state
      = { s with trace := s.trace ++ [Event.kill pid sig] } := by
    unfold sys_kill
    split <;> rfl
  rw [hst]
  refine ⟨rfl, rfl, ?_⟩
  simp [round_sleeps_append, round_sleeps]

theorem sys_usleep_walk_steady (s : State) : Steady s (sys_usleep s 100) := by
  refine ⟨rfl, rfl, ?_⟩
  simp [sys_usleep, round_sleeps_append, round_sleeps]

theorem term_process_steady (s : State) (p : Nat) : Steady s (term_process s p).state := by
  unfold term_process
  split
  · exact steady_refl s
  · exact sys_kill_steady s _ _

theorem kill_process_steady (s : State) (p : Nat) : Steady s (kill_process s p).state := by
  unfold kill_process
  split
  · exact steady_refl s
  · exact sys_kill_steady s _ _

theorem kill_walk_steady (killer : State → Nat → Res Unit)
    (hk : ∀ s p, Steady s (killer s p).state) (n : Nat) :
    (∀ (s : State) (p : Nat), Steady s (kill_recursively n killer s p).state) ∧
    (∀ (s : State) (c : Option Nat) (res : Int),
      Steady s (kill_children n killer s c res).state) := by
  induction n with
  | zero =>
    constructor
    · intro s p; exact steady_refl s
    · intro s c res; cases c <;> exact steady_refl s
  | succ n ih =>
    constructor
    · intro s p
      unfold kill_recursively
      split
      · exact steady_refl s
      · refine steady_trans ⟨rfl, rfl, rfl⟩ (steady_bind (ih.2 _ _ _) (fun t r => ?_))
        split
        · exact steady_refl t
        · refine steady_trans ⟨rfl, rfl, rfl⟩ ?_
          refine steady_trans (sys_usleep_walk_steady _) ?_
          exact steady_bind (hk _ _) (fun u _ => steady_refl u)
    · intro s c res
      cases c with
      | none => exact steady_refl s
      | some c =>
        unfold kill_children
        exact steady_bind (ih.1 _ _) (fun t r => ih.2 _ _ _)

theorem kill_all_loop_succ (n : Nat) (s : State) (ms rounds : Int) :
    kill_all_loop (n + 1) s ms rounds =
      (kill_round n (sys_usleep s ms) ms).bind fun s5 killed =>
        if killed > 0 ∧ rounds < 10
        then kill_all_loop n s5 (if ms > 1000 then ms / 2 else ms) (rounds + 1)
        else Res.ok s5 () := by
  rw [kill_all_loop]
  unfold kill_round
  cases read_processes (sys_usleep s ms) <;> rfl

theorem kill_round_steady (n : Nat) (s1 : State) (ms : Int) :
    Steady s1 (kill_round n s1 ms).state := by
  unfold kill_round
  refine steady_bind (read_processes_steady s1) (fun s2 read => ?_)
  split
  · refine steady_bind (connect_process_tree_steady n s2) (fun s3 _ => ?_)
    refine steady_bind (find_process_steady _ _) (fun s4 p => ?_)
    split
    · exact (kill_walk_steady term_process term_process_steady n).1 _ _
    · exact (kill_walk_steady kill_process kill_process_steady n).1 _ _
  · exact steady_refl s2

theorem kill_all_loop_rounds (n : Nat) :
    ∀ (s : State) (ms rounds : Int),
      (kill_all_loop n s ms rounds).state.sampled_time = s.sampled_time ∧
      (kill_all_loop n s ms rounds).state.sampled_memory = s.sampled_memory ∧
      ∃ L : List Int,
        round_sleeps (kill_all_loop n s ms rounds).state.trace = round_sleeps s.trace ++ L ∧
        (L.length : Int) ≤ max 1 (11 - rounds) ∧
        (ms < 160000 → L.count 160000 = 0) ∧
        L.count 160000 ≤ 1 := by
  induction n with
  | zero =>
    intro s ms rounds
    exact ⟨rfl, rfl, [], by simp [kill_all_loop, Res.state], by simp, by simp, by simp⟩
  | succ n ih =>
    intro s ms rounds
    rw [kill_all_loop_succ]
    have hst := kill_round_steady n (sys_usleep s ms) ms
    obtain ⟨H, hhead, hlen, hc0, hc1, hcm, hcn⟩ : ∃ H : List Int,
        round_sleeps (sys_usleep s ms).trace = round_sleeps s.trace ++ H ∧
        (H.length : Int) ≤ 1 ∧ (ms < 160000 → H.count 160000 = 0) ∧
        H.count 160000 ≤ 1 ∧ (ms = 160000 → H.count 160000 = 1) ∧
        (ms ≠ 160000 → H.count 160000 = 0) := by
      by_cases h : ms = 100
      · refine ⟨[], ?_, by simp, by simp, by simp, ?_, by simp⟩
        · simp [sys_usleep, round_sleeps_append, round_sleeps, h]
        · intro h2; omega
      · refine ⟨[ms], ?_, by simp, ?_, ?_, ?_, ?_⟩
        · simp [sys_usleep, round_sleeps_append, round_sleeps, h]
        · intro h2
          have h3 : ¬ ms = 160000 := by omega
          simp [List.count_cons, h3]
        · by_cases h2 : ms = 160000 <;> simp [List.count_cons, h2]
        · intro h2; simp [List.count_cons, h2]
        · intro h2; simp [List.count_cons, h2]
    cases hr : kill_round n (sys_usleep s ms) ms with
    | abort t =>
      rw [hr] at hst
      have hst : Steady (sys_usleep s ms) t := hst
      refine ⟨hst.1, hst.2.1, H, ?_, ?_, hc0, hc1⟩
      · simp only [Res.bind, Res.state]
        rw [← hhead]; exact hst.2.2
      · exact le_trans hlen (le_max_left _ _)
    | fuel t =>
      rw [hr] at hst
      have hst : Steady (sys_usleep s ms) t := hst
      refine ⟨hst.1, hst.2.1, H, ?_, ?_, hc0, hc1⟩
      · simp only [Res.bind, Res.state]
        rw [← hhead]; exact hst.2.2
      · exact le_trans hlen (le_max_left _ _)
    | signalled t =>
      rw [hr] at hst
      have hst : Steady (sys_usleep s ms) t := hst
      refine ⟨hst.1, hst.2.1, H, ?_, ?_, hc0, hc1⟩
      · simp only [Res.bind, Res.state]
        rw [← hhead]; exact hst.2.2
      · exact le_trans hlen (le_max_left _ _)
    | ok t killed =>
      rw [hr] at hst
      have hst : Steady (sys_usleep s ms) t := hst
      simp only [Res.bind]
      split
      · next hcond =>
        obtain ⟨h1, h2, L, h3, h4, h5, h6⟩ :=
          ih t (if ms > 1000 then ms / 2 else ms) (rounds + 1)
        refine ⟨h1.trans hst.1, h2.trans hst.2.1, H ++ L, ?_, ?_, ?_, ?_⟩
        · rw [h3, hst.2.2, hhead, List.append_assoc]
        · have hr10 : rounds < 10 := hcond.2
          have h7 : max (1 : Int) (11 - (rounds + 1)) = 11 - (rounds + 1) :=
            max_eq_right (by omega)
          rw [h7] at h4
          have h8 : (11 : Int) - rounds ≤ max 1 (11 - rounds) := le_max_right _ _
          simp only [List.length_append, Nat.cast_add]
          omega
        · intro hms
          have hms1 : (if ms > 1000 then ms / 2 else ms) < 160000 := by
            split <;> omega
          simp only [List.count_append, hc0 hms, h5 hms1]
        · by_cases hms : ms = 160000
          · have hms1 : (if ms > 1000 then ms / 2 else ms) < 160000 := by
              rw [hms]; decide
            simp only [List.count_append, hcm hms, h5 hms1]
            omega
          · simp only [List.count_append, hcn hms]
            omega
      · refine ⟨hst.1, hst.2.1, H, ?_, ?_, hc0, hc1⟩
        · simp only [Res.state]
          rw [← hhead]; exact hst.2.2
        · exact le_trans hlen (le_max_left _ _)

theorem kill_all_child_processes_sums (n : Nat) (s : State) :
    (kill_all_child_processes n s).state.sampled_time = s.sampled_time ∧
    (kill_all_child_processes n s).state.sampled_memory = s.sampled_memory :=
  ⟨(kill_all_loop_rounds n s _ _).1, (kill_all_loop_rounds n s _ _).2.1⟩

theorem kill_all_child_processes_teardowns (n : Nat) (s : State) :
    teardowns (kill_all_child_processes n s).state.trace ≤ teardowns s.trace + 1 := by
  obtain ⟨_, _, L, h3, _, _, h6⟩ := kill_all_loop_rounds n s 160000 0
  unfold teardowns kill_all_child_processes
  rw [h3, List.count_append]
  omega

/-- For every behaviour of the process table and every iteration bound, one
call of `kill_all_child_processes` sleeps for at most eleven rounds. -/
theorem kill_all_child_processes_rounds_le (n : Nat) (s : State) :
    ∃ L : List Int,
      round_sleeps (kill_all_child_processes n s).state.trace = round_sleeps s.trace ++ L ∧
      L.length ≤ 11 := by
  obtain ⟨_, _, L, h3, h4, _, _⟩ := kill_all_loop_rounds n s 160000 0
  refine ⟨L, h3, ?_⟩
  have : max (1 : Int) (11 - 0) = 11 := by decide
  rw [this] at h4
  exact_mod_cast h4

/-! ## Running maxima -/

theorem bind_eq_ok {α β : Type} {r : Res α} {k : State → α → Res β} {t : State} {b : β}
    (h : r.bind k = Res.ok t b) : ∃ s1 a, r = Res.ok s1 a ∧ k s1 a = Res.ok t b := by
  cases r with
  | ok s1 a => exact ⟨s1, a, rfl, h⟩
  | abort s1 => simp [Res.bind] at h
  | fuel s1 => simp [Res.bind] at h
  | signalled s1 => simp [Res.bind] at h

theorem isOk_eq_ok_value {α : Type} {r : Res α} (h : r.isOk = true) :
    ∃ a, r = Res.ok r.state a := by
  cases r with
  | ok s b => exact ⟨b, rfl⟩
  | abort s => simp [Res.isOk] at h
  | fuel s => simp [Res.isOk] at h
  | signalled s => simp [Res.isOk] at h

theorem sample_walk_count (n : Nat) :
    (∀ (s : State) (p : Nat) (t : State) (r : Int),
      sample_recursively n s p = Res.ok t r →
      0 ≤ r ∧ (r = 0 → t.sampled_time = s.sampled_time ∧
        t.sampled_memory = s.sampled_memory)) ∧
    (∀ (s : State) (c : Option Nat) (res : Int) (t : State) (r : Int),
      sample_children n s c res = Res.ok t r →
      res ≤ r ∧ (r = res → t.sampled_time = s.sampled_time ∧
        t.sampled_memory = s.sampled_memory)) := by
  induction n with
  | zero =>
    constructor
    · intro s p t r h
      simp [sample_recursively] at h
    · intro s c res t r h
      cases c with
      | none =>
        simp only [sample_children, Res.ok.injEq] at h
        obtain ⟨h1, h2⟩ := h
        subst h1 h2
        exact ⟨le_refl _, fun _ => ⟨rfl, rfl⟩⟩
      | some c => simp [sample_children] at h
  | succ n ih =>
    constructor
    · intro s p t r h
      rw [sample_recursively] at h
      split at h
      · simp only [Res.ok.injEq] at h
        obtain ⟨h1, h2⟩ := h
        subst h1 h2
        exact ⟨le_refl _, fun _ => ⟨rfl, rfl⟩⟩
      · dsimp only at h
        obtain ⟨s3, res3, hc, hk⟩ := bind_eq_ok h
        have hch := ih.2 _ _ _ _ _ hc
        split at hk
        · simp at hk
        · simp only [Res.ok.injEq] at hk
          obtain ⟨h1, h2⟩ := hk
          subst h1 h2
          by_cases hf : (s.process p).sampled = s.num_samples
          · simp only [hf, if_true] at hch
            refine ⟨by omega, fun h0 => ?_⟩
            omega
          · simp only [hf, if_false] at hch
            refine ⟨hch.1, fun h0 => ?_⟩
            exact hch.2 h0
    · intro s c res t r h
      cases c with
      | none =>
        simp only [sample_children, Res.ok.injEq] at h
        obtain ⟨h1, h2⟩ := h
        subst h1 h2
        exact ⟨le_refl _, fun _ => ⟨rfl, rfl⟩⟩
      | some c =>
        rw [sample_children] at h
        obtain ⟨s1, r1, hc, hk⟩ := bind_eq_ok h
        have h1 := ih.1 _ _ _ _ hc
        have h2 := ih.2 _ _ _ _ _ hk
        refine ⟨by omega, fun h0 => ?_⟩
        have hr1 : r1 = 0 := by omega
        have h3 := h1.2 hr1
        have h4 := h2.2 (by omega)
        exact ⟨h4.1.trans h3.1, h4.2.trans h3.2⟩

theorem flush_loop_count (n : Nat) :
    ∀ (s : State) (prev p : Option Nat) (res : Int) (t : State) (r : Int),
      flush_loop n s prev p res = Res.ok t r → res ≤ r := by
  induction n with
  | zero =>
    intro s prev p res t r h
    cases p with
    | none =>
      simp only [flush_loop, Res.ok.injEq] at h
      omega
    | some p => simp [flush_loop] at h
  | succ n ih =>
    intro s prev p res t r h
    cases p with
    | none =>
      simp only [flush_loop, Res.ok.injEq] at h
      omega
    | some p =>
      rw [flush_loop] at h
      split at h
      · simp at h
      · dsimp only at h
        split at h
        · exact ih _ _ _ _ _ _ h
        · have := ih _ _ _ _ _ _ h
          omega

theorem sample_all_child_processes_none (n : Nat) (s t : State) (sampled : Int)
    (h : sample_all_child_processes n s = Res.ok t sampled) (h0 : sampled ≤ 0) :
    t.sampled_time = s.sampled_time ∧ t.sampled_memory = s.sampled_memory := by
  unfold sample_all_child_processes at h
  obtain ⟨s1, read, h1, h⟩ := bind_eq_ok h
  obtain ⟨s2, u, h2, h⟩ := bind_eq_ok h
  obtain ⟨s4, cnt, h4, h⟩ := bind_eq_ok h
  obtain ⟨s5, flushed, h5, h⟩ := bind_eq_ok h
  simp only [Res.ok.injEq] at h
  obtain ⟨hs, hv⟩ := h
  subst hs
  have e1 : Steady s s1 := by
    have := read_processes_steady s
    rw [h1] at this; exact this
  have e2 : Steady s1 s2 := by
    have := connect_process_tree_steady n s1
    rw [h2] at this; exact this
  have e5 : Steady s4 s5 := by
    have := flush_loop_steady n s4 none s4.active 0
    unfold flush_inactive_processes at h5
    rw [h5] at this; exact this
  have hfl : 0 ≤ flushed := flush_loop_count n _ _ _ _ _ _ h5
  have e4 : 0 ≤ cnt ∧ (cnt = 0 → s4.sampled_time = s2.sampled_time ∧
      s4.sampled_memory = s2.sampled_memory) := by
    split at h4
    · obtain ⟨s3, p, h3, hw⟩ := bind_eq_ok h4
      have hs3 : s3 = s2 := by
        have := find_process_state s2 s2.child_pid
        rw [h3] at this; exact this
      rw [hs3] at hw
      exact (sample_walk_count n).1 _ _ _ _ hw
    · simp only [Res.ok.injEq] at h4
      obtain ⟨h41, h42⟩ := h4
      subst h41 h42
      exact ⟨le_refl _, fun _ => ⟨rfl, rfl⟩⟩
  have hc0 : cnt = 0 := by omega
  have e4' := e4.2 hc0
  exact ⟨e5.1.trans (e4'.1.trans (e2.1.trans e1.1)),
    e5.2.1.trans (e4'.2.trans (e2.2.1.trans e1.2.1))⟩

theorem sampler_rest_eq (fuel : Nat) (real : ℚ) (s3 : State) (sampled : Int) :
    sampler_rest fuel real s3 sampled
      = limit_check fuel real (count_report (update_max s3 sampled)) sampled := rfl

theorem kill_all_child_processes_max (n : Nat) (x : State) :
    (kill_all_child_processes n x).state.max_time = x.max_time ∧
    (kill_all_child_processes n x).state.max_memory = x.max_memory :=
  ⟨congrArg Ctl.max_time (kill_all_child_processes_spared n x).1,
   congrArg Ctl.max_memory (kill_all_child_processes_spared n x).1⟩

theorem update_max_fields (s3 : State) (sampled : Int) :
    (update_max s3 sampled).sampled_time = s3.sampled_time ∧
    (update_max s3 sampled).sampled_memory = s3.sampled_memory ∧
    (update_max s3 sampled).max_time
      = (if sampled > 0 then max s3.max_time s3.sampled_time else s3.max_time) ∧
    (update_max s3 sampled).max_memory
      = (if sampled > 0 then max s3.max_memory s3.sampled_memory else s3.max_memory) ∧
    (update_max s3 sampled).trace = s3.trace ∧
    (update_max s3 sampled).latches = s3.latches := by
  unfold update_max
  dsimp only
  by_cases hs : sampled > 0
  · simp only [hs, if_true]
    by_cases hm : s3.sampled_memory > s3.max_memory <;>
      by_cases ht : s3.sampled_time > s3.max_time <;>
      refine ⟨?_, ?_, ?_, ?_, ?_, ?_⟩ <;>
      (try simp only [hm, ht, if_true, if_false]) <;>
      first
        | rfl
        | exact (max_eq_right (le_of_lt ht)).symm
        | exact (max_eq_left (not_lt.mp ht)).symm
        | exact (max_eq_right (le_of_lt hm)).symm
        | exact (max_eq_left (not_lt.mp hm)).symm
  · simp [hs]

theorem count_report_fields (s4 : State) :
    (count_report s4).sampled_time = s4.sampled_time ∧
    (count_report s4).sampled_memory = s4.sampled_memory ∧
    (count_report s4).max_time = s4.max_time ∧
    (count_report s4).max_memory = s4.max_memory ∧
    (count_report s4).trace = s4.trace ∧
    (count_report s4).latches = s4.latches := by
  unfold count_report
  split <;> exact ⟨rfl, rfl, rfl, rfl, rfl, rfl⟩

theorem limit_check_fields (fuel : Nat) (real : ℚ) (s5 : State) (sampled : Int) :
    (limit_check fuel real s5 sampled).state.sampled_time = s5.sampled_time ∧
    (limit_check fuel real s5 sampled).state.sampled_memory = s5.sampled_memory ∧
    (limit_check fuel real s5 sampled).state.max_time = s5.max_time ∧
    (limit_check fuel real s5 sampled).state.max_memory = s5.max_memory := by
  unfold limit_check
  dsimp only
  split_ifs <;>
    first
    | exact ⟨rfl, rfl, rfl, rfl⟩
    | exact ⟨(kill_all_child_processes_sums fuel _).1, (kill_all_child_processes_sums fuel _).2,
        (kill_all_child_processes_max fuel _).1, (kill_all_child_processes_max fuel _).2⟩

theorem sampler_rest_max (fuel : Nat) (real : ℚ) (s3 : State) (sampled : Int) :
    (sampler_rest fuel real s3 sampled).state.sampled_time = s3.sampled_time ∧
    (sampler_rest fuel real s3 sampled).state.sampled_memory = s3.sampled_memory ∧
    (sampler_rest fuel real s3 sampled).state.max_time
      = (if sampled > 0 then max s3.max_time s3.sampled_time else s3.max_time) ∧
    (sampler_rest fuel real s3 sampled).state.max_memory
      = (if sampled > 0 then max s3.max_memory s3.sampled_memory else s3.max_memory) := by
  rw [sampler_rest_eq]
  obtain ⟨a1, a2, a3, a4, _, _⟩ := update_max_fields s3 sampled
  obtain ⟨b1, b2, b3, b4, _, _⟩ := count_report_fields (update_max s3 sampled)
  obtain ⟨c1, c2, c3, c4⟩ :=
    limit_check_fields fuel real (count_report (update_max s3 sampled)) sampled
  exact ⟨c1.trans (b1.trans a1), c2.trans (b2.trans a2), c3.trans (b3.trans a3),
    c4.trans (b4.trans a4)⟩

theorem sampler_of_sample (fuel : Nat) (s : State) (real : ℚ) (sampled : Int)
    (hr : sample_all_child_processes fuel (tick_entry s)
      = Res.ok (sample_all_child_processes fuel (tick_entry s)).state sampled) :
    sampler fuel s real
      = sampler_rest fuel real (sample_all_child_processes fuel (tick_entry s)).state
          sampled := by
  unfold sampler
  generalize (sample_all_child_processes fuel (tick_entry s)).state = s3 at hr
  rw [hr]
  rfl

theorem sampler_not_sampled (fuel : Nat) (s : State) (real : ℚ)
    (h : (sample_all_child_processes fuel (tick_entry s)).isOk = false) :
    (sampler fuel s real).state = (sample_all_child_processes fuel (tick_entry s)).state ∧
    (sampler fuel s real).isOk = false := by
  unfold sampler
  cases hr : sample_all_child_processes fuel (tick_entry s) with
  | ok t a => rw [hr] at h; simp [Res.isOk] at h
  | abort t => exact ⟨rfl, rfl⟩
  | fuel t => exact ⟨rfl, rfl⟩
  | signalled t => exact ⟨rfl, rfl⟩

theorem sampler_tick_max (fuel : Nat) (s : State) (real : ℚ)
    (hv : (sample_all_child_processes fuel (tick_entry s)).isOk = true)
    (h0 : 0 ≤ s.max_time) (h0m : 0 ≤ s.max_memory) :
    (sampler fuel s real).state.max_time
      = max s.max_time (sampler fuel s real).state.sampled_time ∧
    (sampler fuel s real).state.max_memory
      = max s.max_memory (sampler fuel s real).state.sampled_memory := by
  obtain ⟨sampled, hr⟩ := isOk_eq_ok_value hv
  have hq := sample_all_child_processes_quiet fuel (tick_entry s)
  have hnone := sample_all_child_processes_none fuel (tick_entry s) _ sampled hr
  rw [sampler_of_sample fuel s real sampled hr]
  generalize (sample_all_child_processes fuel (tick_entry s)).state = s3 at hq hnone
  have hmt : s3.max_time = s.max_time := congrArg Ctl.max_time hq.1
  have hmm : s3.max_memory = s.max_memory := congrArg Ctl.max_memory hq.1
  obtain ⟨a1, a2, a3, a4⟩ := sampler_rest_max fuel real s3 sampled
  rw [a1, a2, a3, a4, hmt, hmm]
  by_cases hs : sampled > 0
  · simp only [hs, if_true, and_self]
  · simp only [hs, if_false]
    obtain ⟨z1, z2⟩ := hnone (not_lt.mp hs)
    have z1' : s3.sampled_time = 0 := z1
    have z2' : s3.sampled_memory = 0 := z2
    rw [z1', z2']
    exact ⟨(max_eq_left h0).symm, (max_eq_left h0m).symm⟩

theorem sampler_max_mono (fuel : Nat) (s : State) (real : ℚ) :
    s.max_time ≤ (sampler fuel s real).state.max_time ∧
    s.max_memory ≤ (sampler fuel s real).state.max_memory := by
  have hq := sample_all_child_processes_quiet fuel (tick_entry s)
  cases hv : (sample_all_child_processes fuel (tick_entry s)).isOk with
  | false =>
    rw [(sampler_not_sampled fuel s real hv).1]
    have hmt : (sample_all_child_processes fuel (tick_entry s)).state.max_time = s.max_time :=
      congrArg Ctl.max_time hq.1
    have hmm : (sample_all_child_processes fuel (tick_entry s)).state.max_memory
        = s.max_memory := congrArg Ctl.max_memory hq.1
    rw [hmt, hmm]
    exact ⟨le_refl _, le_refl _⟩
  | true =>
    obtain ⟨sampled, hr⟩ := isOk_eq_ok_value hv
    rw [sampler_of_sample fuel s real sampled hr]
    generalize (sample_all_child_processes fuel (tick_entry s)).state = s3 at hq
    have hmt : s3.max_time = s.max_time := congrArg Ctl.max_time hq.1
    have hmm : s3.max_memory = s.max_memory := congrArg Ctl.max_memory hq.1
    obtain ⟨_, _, a3, a4⟩ := sampler_rest_max fuel real s3 sampled
    rw [a3, a4, hmt, hmm]
    split
    · exact ⟨le_max_left _ _, le_max_left _ _⟩
    · exact ⟨le_refl _, le_refl _⟩

theorem sampler_isOk_sample (fuel : Nat) (s : State) (real : ℚ)
    (h : (sampler fuel s real).isOk = true) :
    (sample_all_child_processes fuel (tick_entry s)).isOk = true := by
  cases hv : (sample_all_child_processes fuel (tick_entry s)).isOk with
  | true => rfl
  | false =>
    rw [(sampler_not_sampled fuel s real hv).2] at h
    exact h

theorem run_ticks_max (fuel : Nat) :
    ∀ (reals : List ℚ) (s : State), 0 ≤ s.max_time → 0 ≤ s.max_memory →
      (run_ticks fuel s reals).isOk = true →
      (run_ticks fuel s reals).state.max_time
        = ((sampled_values fuel s reals).map Prod.fst).foldl max s.max_time ∧
      (run_ticks fuel s reals).state.max_memory
        = ((sampled_values fuel s reals).map Prod.snd).foldl max s.max_memory := by
  intro reals
  induction reals with
  | nil =>
    intro s _ _ _
    exact ⟨rfl, rfl⟩
  | cons real rest ih =>
    intro s h0 h0m hrun
    have htick := sampler_tick_max fuel s real
    cases hsam : sampler fuel s real with
    | abort t => simp [run_ticks, hsam, Res.bind, Res.isOk] at hrun
    | fuel t => simp [run_ticks, hsam, Res.bind, Res.isOk] at hrun
    | signalled t => simp [run_ticks, hsam, Res.bind, Res.isOk] at hrun
    | ok s1 u =>
      have hv : (sample_all_child_processes fuel (tick_entry s)).isOk = true :=
        sampler_isOk_sample fuel s real (by rw [hsam]; rfl)
      obtain ⟨m1, m2⟩ := htick hv h0 h0m
      rw [hsam] at m1 m2
      have m1' : s1.max_time = max s.max_time s1.sampled_time := m1
      have m2' : s1.max_memory = max s.max_memory s1.sampled_memory := m2
      have hrun1 : (run_ticks fuel s1 rest).isOk = true := by
        simpa [run_ticks, hsam, Res.bind] using hrun
      have h1 : 0 ≤ s1.max_time := by rw [m1']; exact le_max_of_le_left h0
      have h1m : 0 ≤ s1.max_memory := by rw [m2']; exact le_max_of_le_left h0m
      obtain ⟨i1, i2⟩ := ih s1 h1 h1m hrun1
      have hrt : run_ticks fuel s (real :: rest) = run_ticks fuel s1 rest := by
        simp [run_ticks, hsam, Res.bind]
      have hsv : sampled_values fuel s (real :: rest)
          = (s1.sampled_time, s1.sampled_memory) :: sampled_values fuel s1 rest := by
        simp [sampled_values, hsam]
      rw [hrt, hsv, i1, i2, m1', m2']
      exact ⟨rfl, rfl⟩

/-- C13: after every sequence of sampler ticks that return, started with
`max_time` and `max_memory` at 0, `max_time` is the maximum of 0 and the
values of `sampled_time` the ticks left, and `max_memory` the maximum of 0
and the values of `sampled_memory`, ticks that sampled and flushed nothing
included; and no tick, whatever its outcome, lowers `max_time` or
`max_memory`. -/
theorem max_is_running_maximum (fuel : Nat) (s : State) (reals : List ℚ)
    (ht : s.max_time = 0) (hm : s.max_memory = 0)
    (hrun : (run_ticks fuel s reals).isOk = true) :
    (run_ticks fuel s reals).state.max_time
      = ((sampled_values fuel s reals).map Prod.fst).foldl max 0 ∧
    (run_ticks fuel s reals).state.max_memory
      = ((sampled_values fuel s reals).map Prod.snd).foldl max 0 ∧
    (∀ (s1 : State) (real : ℚ),
      s1.max_time ≤ (sampler fuel s1 real).state.max_time ∧
      s1.max_memory ≤ (sampler fuel s1 real).state.max_memory) := by
  obtain ⟨h1, h2⟩ := run_ticks_max fuel reals s (le_of_eq ht.symm) (le_of_eq hm.symm) hrun
  rw [ht] at h1
  rw [hm] at h2
  exact ⟨h1, h2, sampler_max_mono fuel⟩

/-- C13, witness: two ticks from the start state, the first sampling the
launched child with 1 s and memory 1, the second sampling nothing and
flushing the child. -/
theorem max_is_running_maximum_witness :
    (run_ticks 16 (start_state [reading_child, reading_unrelated]) [1, 2]).isOk = true ∧
    sampled_values 16 (start_state [reading_child, reading_unrelated]) [1, 2]
      = [(1, 1), (0, 0)] ∧
    (run_ticks 16 (start_state [reading_child, reading_unrelated]) [1, 2]).state.max_time
      = ((sampled_values 16 (start_state [reading_child, reading_unrelated]) [1, 2]).map
          Prod.fst).foldl max 0 :=
  ⟨by decide!, by decide!,
   (max_is_running_maximum 16 (start_state [reading_child, reading_unrelated]) [1, 2]
      rfl rfl (by decide!)).1⟩

/-! ## Teardown entrances -/

theorem armed_of_ctl {s t : State} (h : t.ctl = s.ctl) : armed t = armed s := by
  have h1 : t.caught_out_of_time = s.caught_out_of_time := congrArg Ctl.caught_out_of_time h
  have h2 : t.caught_out_of_memory = s.caught_out_of_memory :=
    congrArg Ctl.caught_out_of_memory h
  have h3 : t.caught_other_signal = s.caught_other_signal :=
    congrArg Ctl.caught_other_signal h
  unfold armed
  rw [h1, h2, h3]

theorem armed_of_latches {s t : State} (h : t.latches = s.latches) : armed t = armed s := by
  simp only [State.latches, Prod.mk.injEq] at h
  obtain ⟨h1, h2, _, h3⟩ := h
  unfold armed
  rw [h1, h2, h3]

theorem kill_all_potential (fuel : Nat) (x : State) :
    teardowns (kill_all_child_processes fuel x).state.trace
        + armed (kill_all_child_processes fuel x).state
      ≤ teardowns x.trace + 1 + armed x := by
  have h1 := kill_all_child_processes_teardowns fuel x
  have h2 := armed_of_ctl (kill_all_child_processes_spared fuel x).1
  omega

theorem limit_check_potential (fuel : Nat) (real : ℚ) (s5 : State) (sampled : Int) :
    teardowns (limit_check fuel real s5 sampled).state.trace
        + armed (limit_check fuel real s5 sampled).state
      ≤ teardowns s5.trace + armed s5 := by
  unfold limit_check
  dsimp only
  split_ifs with h1 h2 h3 h4 h5
  · have hp := kill_all_potential fuel { s5 with caught_out_of_time := true }
    have ha : armed { s5 with caught_out_of_time := true } + 1 = armed s5 := by
      simp only [armed, h3]; simp; omega
    have ht : ({ s5 with caught_out_of_time := true } : State).trace = s5.trace := rfl
    rw [ht] at hp
    omega
  · have hc : s5.caught_out_of_time = true := by simpa using h3
    have ha : armed { s5 with caught_out_of_time := true } = armed s5 := by
      simp only [armed, hc]
    simp only [Res.state, ha]
    exact le_refl _
  · have hp := kill_all_potential fuel { s5 with caught_out_of_memory := true }
    have ha : armed { s5 with caught_out_of_memory := true } + 1 = armed s5 := by
      simp only [armed, h5]; simp; omega
    have ht : ({ s5 with caught_out_of_memory := true } : State).trace = s5.trace := rfl
    rw [ht] at hp
    omega
  · have hc : s5.caught_out_of_memory = true := by simpa using h5
    have ha : armed { s5 with caught_out_of_memory := true } = armed s5 := by
      simp only [armed, hc]
    simp only [Res.state, ha]
    exact le_refl _
  · exact le_refl _
  · exact le_refl _

theorem sampler_potential (fuel : Nat) (s : State) (real : ℚ) :
    teardowns (sampler fuel s real).state.trace + armed (sampler fuel s real).state
      ≤ teardowns s.trace + armed s := by
  have hq := sample_all_child_processes_quiet fuel (tick_entry s)
  have ha : armed (sample_all_child_processes fuel (tick_entry s)).state = armed s := by
    have h := armed_of_ctl (s := tick_entry s) hq.1
    exact h
  have ht : (sample_all_child_processes fuel (tick_entry s)).state.trace = s.trace := hq.2
  cases hv : (sample_all_child_processes fuel (tick_entry s)).isOk with
  | false =>
    rw [(sampler_not_sampled fuel s real hv).1, ha, ht]
  | true =>
    obtain ⟨sampled, hr⟩ := isOk_eq_ok_value hv
    rw [sampler_of_sample fuel s real sampled hr, sampler_rest_eq]
    generalize (sample_all_child_processes fuel (tick_entry s)).state = s3 at ha ht
    obtain ⟨_, _, _, _, a5, a6⟩ := update_max_fields s3 sampled
    obtain ⟨_, _, _, _, b5, b6⟩ := count_report_fields (update_max s3 sampled)
    have hp := limit_check_potential fuel real (count_report (update_max s3 sampled)) sampled
    rw [b5, a5, armed_of_latches (b6.trans a6), ha, ht] at hp
    exact hp

theorem sig_other_handler_potential (fuel : Nat) (s : State) :
    teardowns (sig_other_handler fuel s).state.trace + armed (sig_other_handler fuel s).state
      ≤ teardowns s.trace + armed s := by
  unfold sig_other_handler
  dsimp only
  split
  · next hc =>
    have ha : armed { s with caught_other_signal := true } = armed s := by
      simp only [armed, hc]
    simp only [Res.state, ha]
    exact le_refl _
  · next hc =>
    have hc' : s.caught_other_signal = false := by simpa using hc
    have hp := kill_all_potential fuel { s with caught_other_signal := true }
    have ha : armed { s with caught_other_signal := true } + 1 = armed s := by
      simp only [armed, hc']; simp
    have ht : ({ s with caught_other_signal := true } : State).trace = s.trace := rfl
    rw [ht] at hp
    cases hk : kill_all_child_processes fuel { s with caught_other_signal := true } with
    | ok t u =>
      rw [hk] at hp
      simp only [Res.bind, Res.state] at hp ⊢
      have h1 : teardowns (sys_usleep t 10000).trace = teardowns t.trace := by
        simp [teardowns, sys_usleep, round_sleeps_append, round_sleeps, List.count_cons]
      have h2 : armed (sys_usleep t 10000) = armed t := rfl
      rw [h1, h2]
      omega
    | abort t =>
      rw [hk] at hp
      simp only [Res.bind, Res.state] at hp ⊢
      omega
    | fuel t =>
      rw [hk] at hp
      simp only [Res.bind, Res.state] at hp ⊢
      omega
    | signalled t =>
      rw [hk] at hp
      simp only [Res.bind, Res.state] at hp ⊢
      omega

theorem deliver_potential (fuel : Nat) (s : State) (d : Delivery) :
    teardowns (deliver fuel s d).state.trace + armed (deliver fuel s d).state
      ≤ teardowns s.trace + armed s := by
  cases d with
  | tick real => exact sampler_potential fuel s real
  | signal => exact sig_other_handler_potential fuel s

theorem run_handlers_potential (fuel : Nat) :
    ∀ (ds : List Delivery) (s : State),
      teardowns (run_handlers fuel s ds).state.trace + armed (run_handlers fuel s ds).state
        ≤ teardowns s.trace + armed s := by
  intro ds
  induction ds with
  | nil => intro s; exact le_refl _
  | cons d rest ih =>
    intro s
    have hd := deliver_potential fuel s d
    unfold run_handlers
    cases hr : deliver fuel s d with
    | ok t u =>
      rw [hr] at hd
      exact le_trans (ih t) hd
    | abort t =>
      rw [hr] at hd
      exact hd
    | fuel t =>
      rw [hr] at hd
      exact hd
    | signalled t =>
      rw [hr] at hd
      exact hd

theorem armed_le_three (s : State) : armed s ≤ 3 := by
  unfold armed
  split <;> split <;> split <;> omega

theorem update_max_limits (s3 : State) (sampled : Int) :
    (update_max s3 sampled).time_limit = s3.time_limit ∧
    (update_max s3 sampled).real_time_limit = s3.real_time_limit ∧
    (update_max s3 sampled).space_limit = s3.space_limit := by
  unfold update_max
  dsimp only
  split_ifs <;> exact ⟨rfl, rfl, rfl⟩

theorem count_report_limits (s4 : State) :
    (count_report s4).time_limit = s4.time_limit ∧
    (count_report s4).real_time_limit = s4.real_time_limit ∧
    (count_report s4).space_limit = s4.space_limit := by
  unfold count_report
  split <;> exact ⟨rfl, rfl, rfl⟩

theorem limit_check_time_latched (fuel : Nat) (real : ℚ) (s5 : State) (sampled : Int)
    (hc : s5.caught_out_of_time = true)
    (hb : s5.sampled_time > (s5.time_limit : ℚ) ∨ real > (s5.real_time_limit : ℚ)) :
    (limit_check fuel real s5 sampled).state.trace = s5.trace := by
  unfold limit_check
  dsimp only
  split_ifs <;> first | rfl | simp_all

theorem limit_check_memory_latched (fuel : Nat) (real : ℚ) (s5 : State) (sampled : Int)
    (hc : s5.caught_out_of_memory = true)
    (hb : ¬ (s5.sampled_time > (s5.time_limit : ℚ) ∨ real > (s5.real_time_limit : ℚ))) :
    (limit_check fuel real s5 sampled).state.trace = s5.trace := by
  unfold limit_check
  dsimp only
  split_ifs <;> first | rfl | simp_all

theorem sampler_same_cause (fuel : Nat) (s : State) (real : ℚ) :
    (s.caught_out_of_time = true →
      ((s.time_limit : ℚ) < (sample_all_child_processes fuel (tick_entry s)).state.sampled_time
        ∨ (s.real_time_limit : ℚ) < real) →
      (sampler fuel s real).state.trace = s.trace) ∧
    (s.caught_out_of_memory = true →
      ¬ ((s.time_limit : ℚ) < (sample_all_child_processes fuel (tick_entry s)).state.sampled_time
        ∨ (s.real_time_limit : ℚ) < real) →
      (sampler fuel s real).state.trace = s.trace) := by
  have hq := sample_all_child_processes_quiet fuel (tick_entry s)
  have ht : (sample_all_child_processes fuel (tick_entry s)).state.trace = s.trace := hq.2
  cases hv : (sample_all_child_processes fuel (tick_entry s)).isOk with
  | false =>
    rw [(sampler_not_sampled fuel s real hv).1, ht]
    exact ⟨fun _ _ => rfl, fun _ _ => rfl⟩
  | true =>
    obtain ⟨sampled, hr⟩ := isOk_eq_ok_value hv
    rw [sampler_of_sample fuel s real sampled hr, sampler_rest_eq]
    generalize (sample_all_child_processes fuel (tick_entry s)).state = s3 at hq ht
    have htl : s3.time_limit = s.time_limit := congrArg Ctl.time_limit hq.1
    have hrl : s3.real_time_limit = s.real_time_limit := congrArg Ctl.real_time_limit hq.1
    have hct : s3.caught_out_of_time = s.caught_out_of_time :=
      congrArg Ctl.caught_out_of_time hq.1
    have hcm : s3.caught_out_of_memory = s.caught_out_of_memory :=
      congrArg Ctl.caught_out_of_memory hq.1
    obtain ⟨a1, _, _, _, a5, a6⟩ := update_max_fields s3 sampled
    obtain ⟨b1, _, _, _, b5, b6⟩ := count_report_fields (update_max s3 sampled)
    obtain ⟨c1, c2, _⟩ := update_max_limits s3 sampled
    obtain ⟨d1, d2, _⟩ := count_report_limits (update_max s3 sampled)
    have hl : (count_report (update_max s3 sampled)).latches = s3.latches := b6.trans a6
    simp only [State.latches, Prod.mk.injEq] at hl
    obtain ⟨l1, l2, _, _⟩ := hl
    have e1 : (count_report (update_max s3 sampled)).sampled_time = s3.sampled_time :=
      b1.trans a1
    have e2 : (count_report (update_max s3 sampled)).time_limit = s.time_limit :=
      d1.trans (c1.trans htl)
    have e3 : (count_report (update_max s3 sampled)).real_time_limit = s.real_time_limit :=
      d2.trans (c2.trans hrl)
    have e4 : (count_report (update_max s3 sampled)).trace = s.trace :=
      b5.trans (a5.trans ht)
    constructor
    · intro hc hb
      rw [limit_check_time_latched fuel real _ sampled (by rw [l1, hct]; exact hc)
        (by rw [e1, e2, e3]; exact hb), e4]
    · intro hc hb
      rw [limit_check_memory_latched fuel real _ sampled (by rw [l2, hcm]; exact hc)
        (by rw [e1, e2, e3]; exact hb), e4]

theorem sig_other_handler_latched (fuel : Nat) (s : State)
    (hc : s.caught_other_signal = true) :
    (sig_other_handler fuel s).state.trace = s.trace := by
  unfold sig_other_handler
  dsimp only
  rw [if_pos hc]
  rfl

/-- C14 (amended): over every sequence of sampler ticks and
terminating-signal deliveries, the handlers enter the teardown at most once
for each of the causes out-of-time, out-of-memory and other-signal: every
entrance sets the latch of its cause, which was unset and stays set (the
entrances plus the unset latches never grow), so there are at most three
entrances in a run; a tick over the time limits with `caught_out_of_time`
set, a tick within them with `caught_out_of_memory` set, and a signal with
`caught_other_signal` set make no system call. -/
theorem teardown_once_per_cause :
    (∀ (fuel : Nat) (s : State) (ds : List Delivery),
      teardowns (run_handlers fuel s ds).state.trace + armed (run_handlers fuel s ds).state
        ≤ teardowns s.trace + armed s) ∧
    (∀ (fuel : Nat) (s : State) (ds : List Delivery),
      teardowns (run_handlers fuel s ds).state.trace ≤ teardowns s.trace + 3) ∧
    (∀ (fuel : Nat) (s : State) (real : ℚ),
      s.caught_out_of_time = true →
      ((s.time_limit : ℚ) < (sample_all_child_processes fuel (tick_entry s)).state.sampled_time
        ∨ (s.real_time_limit : ℚ) < real) →
      (sampler fuel s real).state.trace = s.trace) ∧
    (∀ (fuel : Nat) (s : State) (real : ℚ),
      s.caught_out_of_memory = true →
      ¬ ((s.time_limit : ℚ) < (sample_all_child_processes fuel (tick_entry s)).state.sampled_time
        ∨ (s.real_time_limit : ℚ) < real) →
      (sampler fuel s real).state.trace = s.trace) ∧
    (∀ (fuel : Nat) (s : State),
      s.caught_other_signal = true → (sig_other_handler fuel s).state.trace = s.trace) := by
  refine ⟨fun fuel s ds => run_handlers_potential fuel ds s, fun fuel s ds => ?_,
    fun fuel s real => (sampler_same_cause fuel s real).1,
    fun fuel s real => (sampler_same_cause fuel s real).2,
    sig_other_handler_latched⟩
  have h1 := run_handlers_potential fuel ds s
  have h2 := armed_le_three s
  omega

/-- C14, witness: in the run of `three_causes` the three deliveries enter
three teardowns and no more, and a second signal after the first makes no
system call. -/
theorem teardown_once_per_cause_witness :
    teardowns (run_handlers 16 three_causes
        [Delivery.tick 1, Delivery.tick 2, Delivery.signal]).state.trace
      ≤ teardowns three_causes.trace + 3 ∧
    (sig_other_handler 16 { three_causes with caught_other_signal := true }).state.trace
      = ({ three_causes with caught_other_signal := true } : State).trace :=
  ⟨teardown_once_per_cause.2.1 16 three_causes
      [Delivery.tick 1, Delivery.tick 2, Delivery.signal],
   teardown_once_per_cause.2.2.2.2 16 { three_causes with caught_other_signal := true } rfl⟩

/-- C14, counterexample: the launched child survives every signal; the
first tick finds it over the space limit and enters the teardown, the second
tick finds it over the time limit and enters the teardown again, and a
terminating signal to the supervisor enters it a third time: each cause
tests its own latch only. -/
theorem teardown_entered_for_each_cause :
    teardowns three_causes.trace = 0 ∧
    (run_handlers 16 three_causes [Delivery.tick 1]).state.latches
      = (false, true, false, false) ∧
    teardowns (run_handlers 16 three_causes [Delivery.tick 1]).state.trace = 1 ∧
    (run_handlers 16 three_causes [Delivery.tick 1, Delivery.tick 2]).state.latches
      = (true, true, false, false) ∧
    teardowns (run_handlers 16 three_causes
      [Delivery.tick 1, Delivery.tick 2]).state.trace = 2 ∧
    (run_handlers 16 three_causes
      [Delivery.tick 1, Delivery.tick 2, Delivery.signal]).isOk = true ∧
    (run_handlers 16 three_causes
      [Delivery.tick 1, Delivery.tick 2, Delivery.signal]).state.latches
      = (true, true, false, true) ∧
    teardowns (run_handlers 16 three_causes
      [Delivery.tick 1, Delivery.tick 2, Delivery.signal]).state.trace = 3 := by
  decide!

/-! ## Rounds of the killer and fork failure -/

/-- C11: with the launched child 10 alive in every re-read, so that every
round signals it, one call of `kill_all_child_processes` executes its round
eleven times: the test `rounds++ < 10` holds for `rounds` from 0 to 9 after
the rounds one to ten, and the eleventh round runs before it fails. -/
theorem kill_all_runs_eleven_rounds :
    (kill_all_child_processes 16 child_alive).isOk = true ∧
    round_sleeps (kill_all_child_processes 16 child_alive).state.trace
      = [160000, 80000, 40000, 20000, 10000, 5000, 2500, 1250, 625, 625, 625] ∧
    (round_sleeps (kill_all_child_processes 16 child_alive).state.trace).length = 11 ∧
    kills (kill_all_child_processes 16 child_alive).state.trace
      = List.replicate 7 (10, Signal.SIGTERM) ++ List.replicate 4 (10, Signal.SIGKILL) ∧
    (kill_all_child_processes 16 child_alive).state.proc.length = 1 := by
  decide!

/-- C12: after a failed `fork` (`child_pid` -1) with no latch set and no
override, the final `kill_all_child_processes` of `main` reads init and the
supervisor from `/proc`, so `read > 0`, and `find_process (child_pid)` fails
its assertion `0 <= pid`: `main` stops there and reports nothing. When the
directory shows no entry, `main` reports `fork failed` and returns 6. -/
theorem main_fork_failure_asserts :
    fork_failed.child_pid < 0 ∧
    fork_failed.latches = (false, false, false, false) ∧
    ¬ (fork_failed.max_time ≥ (fork_failed.time_limit : ℚ)
        ∨ (1 : ℚ) ≥ (fork_failed.real_time_limit : ℚ)) ∧
    (read_processes (sys_usleep fork_failed 160000)).value = some 2 ∧
    (find_process fork_failed fork_failed.child_pid).isAbort = true ∧
    (main 16 fork_failed WaitStatus.neither 1).isAbort = true ∧
    main_report 16 fork_failed WaitStatus.neither 1 = none ∧
    main_report 16 fork_failed_unread WaitStatus.neither 1
      = some (Description.text "fork failed", 6) := by
  decide!

end Runlim
